import Mathlib

/-!
Verification of the sound-reflection simulator core (Go source) against its
natural-language specification.  Floating-point numbers of the source are
modelled as real numbers; Go slices become Lean lists; the mutable 3D
occupancy grid becomes a function from integer cell indices to cell states.
All definitions are shallow embeddings of the corresponding Go functions,
keeping their names.
-/

namespace SRS

open scoped Classical

noncomputable section

/-! ## Vector math (source: Vector3 and its methods) -/

structure Vector3 where
  X : ℝ
  Y : ℝ
  Z : ℝ

def Vector3.Add (v other : Vector3) : Vector3 :=
  ⟨v.X + other.X, v.Y + other.Y, v.Z + other.Z⟩

def Vector3.Sub (v other : Vector3) : Vector3 :=
  ⟨v.X - other.X, v.Y - other.Y, v.Z - other.Z⟩

def Vector3.Scale (v : Vector3) (s : ℝ) : Vector3 :=
  ⟨v.X * s, v.Y * s, v.Z * s⟩

def Vector3.Dot (v other : Vector3) : ℝ :=
  v.X * other.X + v.Y * other.Y + v.Z * other.Z

def Vector3.LengthSquared (v : Vector3) : ℝ :=
  v.X * v.X + v.Y * v.Y + v.Z * v.Z

def Vector3.Length (v : Vector3) : ℝ :=
  Real.sqrt v.LengthSquared

def Vector3.Normalize (v : Vector3) : Vector3 :=
  let l := v.Length
  if l = 0 then ⟨0, 0, 0⟩
  else ⟨v.X / l, v.Y / l, v.Z / l⟩

def Vector3.Reflect (v normal : Vector3) : Vector3 :=
  let dotProduct := v.Dot normal
  v.Sub (normal.Scale (2 * dotProduct))

def SetFromSphericalCoords (radius phi theta : ℝ) : Vector3 :=
  let sinPhiRadius := Real.sin phi * radius
  ⟨sinPhiRadius * Real.sin theta, Real.cos phi * radius, sinPhiRadius * Real.cos theta⟩

/-! ## Global constants (source: part_000) -/

def MAX_RAY_DISTANCE : ℝ := 50.0

def EPSILON : ℝ := 0.00001

def OPTIMIZATION_STEP_SIZE : ℝ := 0.5

def FIBONACCI_SCORE_CAP_INDEX : ℤ := 20

def BASE_DIRECT_HIT_SCORE : ℤ := 10

/-! ## Basic claim C9 support lemmas -/

theorem Vector3.lengthSquared_nonneg (v : Vector3) : 0 ≤ v.LengthSquared := by
  have hx : 0 ≤ v.X * v.X := mul_self_nonneg _
  have hy : 0 ≤ v.Y * v.Y := mul_self_nonneg _
  have hz : 0 ≤ v.Z * v.Z := mul_self_nonneg _
  unfold Vector3.LengthSquared
  linarith

theorem Vector3.length_eq_zero_iff (v : Vector3) :
    v.Length = 0 ↔ v = ⟨0, 0, 0⟩ := by
  unfold Vector3.Length
  rw [Real.sqrt_eq_zero (Vector3.lengthSquared_nonneg v)]
  constructor
  · intro h
    have hx : 0 ≤ v.X * v.X := mul_self_nonneg _
    have hy : 0 ≤ v.Y * v.Y := mul_self_nonneg _
    have hz : 0 ≤ v.Z * v.Z := mul_self_nonneg _
    unfold Vector3.LengthSquared at h
    have hx0 : v.X * v.X = 0 := by linarith
    have hy0 : v.Y * v.Y = 0 := by linarith
    have hz0 : v.Z * v.Z = 0 := by linarith
    cases v with
    | mk x y z =>
      simp only [Vector3.mk.injEq]
      refine ⟨?_, ?_, ?_⟩ <;> [exact mul_self_eq_zero.mp hx0;
        exact mul_self_eq_zero.mp hy0; exact mul_self_eq_zero.mp hz0]
  · intro h
    subst h
    unfold Vector3.LengthSquared
    norm_num

/-- C9: Normalize applied to the zero vector returns the zero vector without
error, and for every non-zero vector v, Normalize(v) returns v scaled by the
reciprocal of its length. -/
theorem normalize_spec :
    (Vector3.Normalize ⟨0, 0, 0⟩ = ⟨0, 0, 0⟩) ∧
      ∀ v : Vector3, v ≠ ⟨0, 0, 0⟩ → v.Normalize = v.Scale (1 / v.Length) := by
  constructor
  · unfold Vector3.Normalize
    simp [(Vector3.length_eq_zero_iff ⟨0, 0, 0⟩).mpr rfl]
  · intro v hv
    have hl : v.Length ≠ 0 := fun h => hv ((Vector3.length_eq_zero_iff v).mp h)
    unfold Vector3.Normalize Vector3.Scale
    simp only [hl, if_false]
    congr 1 <;> field_simp

/-- C9 witness: the vector (3,4,0) has length 5 and normalizes to (3/5, 4/5, 0). -/
theorem normalize_spec_witness :
    (Vector3.mk 3 4 0 ≠ ⟨0, 0, 0⟩) ∧
      Vector3.Normalize ⟨3, 4, 0⟩ = Vector3.Scale ⟨3, 4, 0⟩ (1 / Vector3.Length ⟨3, 4, 0⟩) := by
  constructor
  · intro h
    have := congrArg Vector3.X h
    norm_num at this
  · exact normalize_spec.2 ⟨3, 4, 0⟩ (by intro h; have := congrArg Vector3.X h; norm_num at this)

/-! ## Integer ranges used to model the Go for-loops over grid cells -/

def intRange (a b : ℤ) : List ℤ :=
  (List.range (b + 1 - a).toNat).map (fun k : ℕ => a + (k : ℤ))

theorem mem_intRange {a b x : ℤ} : x ∈ intRange a b ↔ a ≤ x ∧ x ≤ b := by
  unfold intRange
  simp only [List.mem_map, List.mem_range]
  constructor
  · rintro ⟨k, hk, rfl⟩
    omega
  · rintro ⟨h1, h2⟩
    exact ⟨(x - a).toNat, by omega, by omega⟩

/-- Flattening of the triple nested cell loops of the source. -/
def cellCube (x0 x1 y0 y1 z0 z1 : ℤ) : List (ℤ × ℤ × ℤ) :=
  (intRange x0 x1).bind fun ix =>
    (intRange y0 y1).bind fun iy =>
      (intRange z0 z1).map fun iz => (ix, iy, iz)

theorem mem_cellCube {x0 x1 y0 y1 z0 z1 : ℤ} {c : ℤ × ℤ × ℤ} :
    c ∈ cellCube x0 x1 y0 y1 z0 z1 ↔
      (x0 ≤ c.1 ∧ c.1 ≤ x1) ∧ (y0 ≤ c.2.1 ∧ c.2.1 ≤ y1) ∧ (z0 ≤ c.2.2 ∧ c.2.2 ≤ z1) := by
  unfold cellCube
  simp only [List.mem_bind, List.mem_map, mem_intRange]
  constructor
  · rintro ⟨ix, hix, iy, hiy, iz, hiz, rfl⟩
    exact ⟨hix, hiy, hiz⟩
  · rintro ⟨hx, hy, hz⟩
    exact ⟨c.1, hx, c.2.1, hy, c.2.2, hz, rfl⟩

/-! ## Occupancy cloud data model (source: part_001) -/

inductive PointState where
  | StateEmpty
  | StateStaticObstacle
  | StateSoundSource
  | StateListener
  | StateOutOfBounds
  deriving DecidableEq, Repr

open PointState

/-- The 3D grid is modelled as a total function on integer indices; the
bounds-checking accessors below reproduce the guarded slice accesses of the
source, so out-of-range indices are never read or written. DebugLogging is
dropped (it only drives log output). -/
structure OccupancyCloud where
  Grid : ℤ → ℤ → ℤ → PointState
  RoomMin : Vector3
  RoomMax : Vector3
  CellSize : Vector3
  CellsX : ℤ
  CellsY : ℤ
  CellsZ : ℤ

/-- NewOccupancyCloud; the Option result models termination: none corresponds
to the log.Fatalf call on a non-positive cell dimension, or to the runtime
panic of the Go make builtin when a computed cell count is negative. The
int(math.Ceil ..) conversion becomes the integer ceiling. -/
def NewOccupancyCloud (roomMin roomMax cellSize : Vector3) : Option OccupancyCloud :=
  if cellSize.X ≤ 0 ∨ cellSize.Y ≤ 0 ∨ cellSize.Z ≤ 0 then none
  else
    let cellsX : ℤ := ⌈(roomMax.X - roomMin.X) / cellSize.X⌉
    let cellsY : ℤ := ⌈(roomMax.Y - roomMin.Y) / cellSize.Y⌉
    let cellsZ : ℤ := ⌈(roomMax.Z - roomMin.Z) / cellSize.Z⌉
    let cellsX := if cellsX = 0 then 1 else cellsX
    let cellsY := if cellsY = 0 then 1 else cellsY
    let cellsZ := if cellsZ = 0 then 1 else cellsZ
    if cellsX < 0 ∨ cellsY < 0 ∨ cellsZ < 0 then none
    else
      some { Grid := fun _ _ _ => StateEmpty, RoomMin := roomMin, RoomMax := roomMax,
             CellSize := cellSize, CellsX := cellsX, CellsY := cellsY, CellsZ := cellsZ }

def clampInt (val lo hi : ℤ) : ℤ :=
  if val < lo then lo else if val > hi then hi else val

/-- Result of worldToGridCoords: indices plus the in-bounds flag. -/
structure GridCoords where
  ix : ℤ
  iy : ℤ
  iz : ℤ
  inB : Bool

def worldToGridCoords (oc : OccupancyCloud) (worldPos : Vector3) : GridCoords :=
  if worldPos.X < oc.RoomMin.X ∨ worldPos.X ≥ oc.RoomMin.X + (oc.CellsX : ℝ) * oc.CellSize.X ∨
     worldPos.Y < oc.RoomMin.Y ∨ worldPos.Y ≥ oc.RoomMin.Y + (oc.CellsY : ℝ) * oc.CellSize.Y ∨
     worldPos.Z < oc.RoomMin.Z ∨ worldPos.Z ≥ oc.RoomMin.Z + (oc.CellsZ : ℝ) * oc.CellSize.Z then
    ⟨-1, -1, -1, false⟩
  else
    ⟨clampInt ⌊(worldPos.X - oc.RoomMin.X) / oc.CellSize.X⌋ 0 (oc.CellsX - 1),
     clampInt ⌊(worldPos.Y - oc.RoomMin.Y) / oc.CellSize.Y⌋ 0 (oc.CellsY - 1),
     clampInt ⌊(worldPos.Z - oc.RoomMin.Z) / oc.CellSize.Z⌋ 0 (oc.CellsZ - 1), true⟩

def getCellState (oc : OccupancyCloud) (ix iy iz : ℤ) : PointState :=
  if ix < 0 ∨ ix ≥ oc.CellsX ∨ iy < 0 ∨ iy ≥ oc.CellsY ∨ iz < 0 ∨ iz ≥ oc.CellsZ then
    StateOutOfBounds
  else oc.Grid ix iy iz

def setCellState (oc : OccupancyCloud) (ix iy iz : ℤ) (state : PointState) : OccupancyCloud :=
  if 0 ≤ ix ∧ ix < oc.CellsX ∧ 0 ≤ iy ∧ iy < oc.CellsY ∧ 0 ≤ iz ∧ iz < oc.CellsZ then
    { oc with Grid := fun x y z => if x = ix ∧ y = iy ∧ z = iz then state else oc.Grid x y z }
  else oc

/-- C6 counterexample: with roomMin = roomMax (every room extent is 0, hence
non-positive) and positive unit cell sizes, NewOccupancyCloud is not fatal as
the claim requires: it returns a grid, with every cell count clamped to 1. -/
theorem newOccupancyCloud_zero_extent_counterexample :
    NewOccupancyCloud ⟨0, 0, 0⟩ ⟨0, 0, 0⟩ ⟨1, 1, 1⟩ =
      some { Grid := fun _ _ _ => StateEmpty, RoomMin := ⟨0, 0, 0⟩, RoomMax := ⟨0, 0, 0⟩,
             CellSize := ⟨1, 1, 1⟩, CellsX := 1, CellsY := 1, CellsZ := 1 } := by
  unfold NewOccupancyCloud
  norm_num

/-- C6 amended: grid construction is fatal iff some cell-size component is
non-positive (the explicit Fatalf guard), or — with positive cell sizes — some
per-axis ceiling of extent over cell size is negative, which makes the Go make
builtin panic on a negative length; this happens only when the extent is at
most minus the cell size, not for every non-positive extent.  For all other
inputs it returns a grid whose per-axis cell count is the ceiling of extent
over cell size clamped up to a minimum of 1 (hence equal to that ceiling
whenever the extent is positive), and always at least 1. -/
theorem newOccupancyCloud_spec (roomMin roomMax cellSize : Vector3) :
    (NewOccupancyCloud roomMin roomMax cellSize = none ↔
      (cellSize.X ≤ 0 ∨ cellSize.Y ≤ 0 ∨ cellSize.Z ≤ 0) ∨
        ⌈(roomMax.X - roomMin.X) / cellSize.X⌉ < 0 ∨
        ⌈(roomMax.Y - roomMin.Y) / cellSize.Y⌉ < 0 ∨
        ⌈(roomMax.Z - roomMin.Z) / cellSize.Z⌉ < 0) ∧
      ∀ oc, NewOccupancyCloud roomMin roomMax cellSize = some oc →
        oc.CellsX = max 1 ⌈(roomMax.X - roomMin.X) / cellSize.X⌉ ∧
        oc.CellsY = max 1 ⌈(roomMax.Y - roomMin.Y) / cellSize.Y⌉ ∧
        oc.CellsZ = max 1 ⌈(roomMax.Z - roomMin.Z) / cellSize.Z⌉ ∧
        1 ≤ oc.CellsX ∧ 1 ≤ oc.CellsY ∧ 1 ≤ oc.CellsZ := by
  set cx := ⌈(roomMax.X - roomMin.X) / cellSize.X⌉ with hcx
  set cy := ⌈(roomMax.Y - roomMin.Y) / cellSize.Y⌉ with hcy
  set cz := ⌈(roomMax.Z - roomMin.Z) / cellSize.Z⌉ with hcz
  by_cases h1 : cellSize.X ≤ 0 ∨ cellSize.Y ≤ 0 ∨ cellSize.Z ≤ 0
  · have key : NewOccupancyCloud roomMin roomMax cellSize = none := by
      simp only [NewOccupancyCloud, if_pos h1]
    rw [key]
    constructor
    · simp only [true_iff]
      exact Or.inl h1
    · intro oc hoc
      exact Option.noConfusion hoc
  · have key : NewOccupancyCloud roomMin roomMax cellSize =
        if (if cx = 0 then 1 else cx) < 0 ∨ (if cy = 0 then 1 else cy) < 0 ∨
            (if cz = 0 then 1 else cz) < 0 then none
        else some { Grid := fun _ _ _ => StateEmpty, RoomMin := roomMin, RoomMax := roomMax,
                    CellSize := cellSize,
                    CellsX := if cx = 0 then 1 else cx,
                    CellsY := if cy = 0 then 1 else cy,
                    CellsZ := if cz = 0 then 1 else cz } := by
      simp only [NewOccupancyCloud, if_neg h1, ← hcx, ← hcy, ← hcz]
    by_cases h2 : cx < 0 ∨ cy < 0 ∨ cz < 0
    · have h2' : (if cx = 0 then 1 else cx) < 0 ∨ (if cy = 0 then 1 else cy) < 0 ∨
          (if cz = 0 then 1 else cz) < 0 := by
        rcases h2 with h | h | h
        · left; split_ifs <;> omega
        · right; left; split_ifs <;> omega
        · right; right; split_ifs <;> omega
      rw [key, if_pos h2']
      constructor
      · simp only [true_iff]
        exact Or.inr h2
      · intro oc hoc
        exact Option.noConfusion hoc
    · push_neg at h2
      have h2' : ¬ ((if cx = 0 then 1 else cx) < 0 ∨ (if cy = 0 then 1 else cy) < 0 ∨
          (if cz = 0 then 1 else cz) < 0) := by
        push_neg
        refine ⟨?_, ?_, ?_⟩ <;> split_ifs <;> omega
      rw [key, if_neg h2']
      constructor
      · simp only [reduceCtorEq, false_iff]
        push_neg
        push_neg at h1
        exact ⟨h1, by omega, by omega, by omega⟩
      · intro oc hoc
        have hoc' := (Option.some.injEq _ _).mp hoc
        subst hoc'
        refine ⟨?_, ?_, ?_, ?_, ?_, ?_⟩ <;> simp only [max_def] <;> split_ifs <;> omega

/-- C6 witness: for the room from the origin to (2,2,2) with unit cells the
amended characterisation yields a grid with per-axis cell count 2, at least 1. -/
theorem newOccupancyCloud_spec_witness :
    ∃ oc, NewOccupancyCloud ⟨0, 0, 0⟩ ⟨2, 2, 2⟩ ⟨1, 1, 1⟩ = some oc ∧
      oc.CellsX = 2 ∧ 1 ≤ oc.CellsX ∧ 1 ≤ oc.CellsY ∧ 1 ≤ oc.CellsZ := by
  have h : NewOccupancyCloud ⟨0, 0, 0⟩ ⟨2, 2, 2⟩ ⟨1, 1, 1⟩ =
      some { Grid := fun _ _ _ => StateEmpty, RoomMin := ⟨0, 0, 0⟩, RoomMax := ⟨2, 2, 2⟩,
             CellSize := ⟨1, 1, 1⟩, CellsX := 2, CellsY := 2, CellsZ := 2 } := by
    unfold NewOccupancyCloud
    norm_num
  have hs := (newOccupancyCloud_spec ⟨0, 0, 0⟩ ⟨2, 2, 2⟩ ⟨1, 1, 1⟩).2 _ h
  refine ⟨_, h, ?_, hs.2.2.2.1, hs.2.2.2.2.1, hs.2.2.2.2.2⟩
  rw [hs.1]
  norm_num

/-! ## Dynamic updates and validity checks on the occupancy cloud -/

/-- spheresIntersect (source: optimization.go). -/
def spheresIntersect (pos1 : Vector3) (radius1 : ℝ) (pos2 : Vector3) (radius2 : ℝ) : Bool :=
  let distanceSq := (pos1.X - pos2.X) * (pos1.X - pos2.X) +
    (pos1.Y - pos2.Y) * (pos1.Y - pos2.Y) + (pos1.Z - pos2.Z) * (pos1.Z - pos2.Z)
  let sumRadiiSq := (radius1 + radius2) * (radius1 + radius2)
  decide (distanceSq < sumRadiiSq + EPSILON)

/-- The conservative cell-marking radius used by UpdateObjectInCloud:
max scale component over two plus the X cell size as safety margin. -/
def markRadiusOf (oc : OccupancyCloud) (objScale : Vector3) : ℝ :=
  max objScale.X (max objScale.Y objScale.Z) / 2.0 + oc.CellSize.X

/-- World position of the centre of a grid cell, as computed inline by the
source inside its cell loops. -/
def cellCenterOf (oc : OccupancyCloud) (c : ℤ × ℤ × ℤ) : Vector3 :=
  ⟨oc.RoomMin.X + ((c.1 : ℝ) + 0.5) * oc.CellSize.X,
   oc.RoomMin.Y + ((c.2.1 : ℝ) + 0.5) * oc.CellSize.Y,
   oc.RoomMin.Z + ((c.2.2 : ℝ) + 0.5) * oc.CellSize.Z⟩

/-- The list of cells visited by the nested loops the source runs between the
grid coordinates of pos - (r,r,r) and pos + (r,r,r). -/
def regionOf (oc : OccupancyCloud) (pos : Vector3) (r : ℝ) : List (ℤ × ℤ × ℤ) :=
  let cmin := worldToGridCoords oc (pos.Sub ⟨r, r, r⟩)
  let cmax := worldToGridCoords oc (pos.Add ⟨r, r, r⟩)
  cellCube cmin.ix cmax.ix cmin.iy cmax.iy cmin.iz cmax.iz

/-- Body of the clearing loop of UpdateObjectInCloud: clear the cell if it is
currently tagged with this object type. -/
def clearStep (newState : PointState) (o : OccupancyCloud) (c : ℤ × ℤ × ℤ) : OccupancyCloud :=
  if getCellState o c.1 c.2.1 c.2.2 = newState then
    setCellState o c.1 c.2.1 c.2.2 StateEmpty
  else o

/-- Body of the marking loop of UpdateObjectInCloud: mark the cell when its
centre lies inside the mark sphere and the cell is empty. -/
def markStep (newPosition : Vector3) (markRadius : ℝ) (newState : PointState)
    (o : OccupancyCloud) (c : ℤ × ℤ × ℤ) : OccupancyCloud :=
  if ((cellCenterOf o c).Sub newPosition).Length < markRadius then
    (if getCellState o c.1 c.2.1 c.2.2 = StateEmpty then
      setCellState o c.1 c.2.1 c.2.2 newState
    else o)
  else o

/-- UpdateObjectInCloud: clears cells holding newState in a box around the
old position, then marks empty cells inside the mark sphere around the new
position.  objName is kept from the source signature (used there only for
logging). -/
def UpdateObjectInCloud (oc : OccupancyCloud) (objName : String)
    (oldPosition newPosition objScale : Vector3) (newState : PointState) : OccupancyCloud :=
  let markRadius := markRadiusOf oc objScale
  let oc1 := (regionOf oc oldPosition markRadius).foldl (clearStep newState) oc
  (regionOf oc1 newPosition markRadius).foldl (markStep newPosition markRadius newState) oc1

/-- IsPositionAttemptValid: the early returns of the source loop are modelled
by the all-quantified per-cell check (no side effects occur in the loop). -/
def IsPositionAttemptValid (oc : OccupancyCloud) (proposedPos movingObjScale : Vector3)
    (movingObjType : PointState) (otherObjCurrentPos otherObjScale : Vector3) : Bool :=
  let objRadius := max movingObjScale.X (max movingObjScale.Y movingObjScale.Z) / 2.0
  (regionOf oc proposedPos objRadius).all fun c =>
    if ((cellCenterOf oc c).Sub proposedPos).Length < objRadius then
      (let cellState := getCellState oc c.1 c.2.1 c.2.2
       if cellState = StateOutOfBounds then false
       else if cellState = StateStaticObstacle then false
       else if spheresIntersect proposedPos objRadius otherObjCurrentPos
           (max otherObjScale.X otherObjScale.Z / 2.0) then false
       else true)
    else true

/-! ## Pointwise characterisation of the grid-mutating loops -/

def gridAt (oc : OccupancyCloud) (c : ℤ × ℤ × ℤ) : PointState := oc.Grid c.1 c.2.1 c.2.2

/-- Cell index triple lies inside the allocated grid. -/
def cellInB (oc : OccupancyCloud) (c : ℤ × ℤ × ℤ) : Prop :=
  0 ≤ c.1 ∧ c.1 < oc.CellsX ∧ 0 ≤ c.2.1 ∧ c.2.1 < oc.CellsY ∧ 0 ≤ c.2.2 ∧ c.2.2 < oc.CellsZ

/-- Equality of everything except the grid contents. -/
def fieldsEq (a b : OccupancyCloud) : Prop :=
  a.RoomMin = b.RoomMin ∧ a.RoomMax = b.RoomMax ∧ a.CellSize = b.CellSize ∧
    a.CellsX = b.CellsX ∧ a.CellsY = b.CellsY ∧ a.CellsZ = b.CellsZ

theorem fieldsEq_refl (a : OccupancyCloud) : fieldsEq a a :=
  ⟨rfl, rfl, rfl, rfl, rfl, rfl⟩

theorem fieldsEq_trans {a b c : OccupancyCloud} (h1 : fieldsEq a b) (h2 : fieldsEq b c) :
    fieldsEq a c := by
  obtain ⟨u1, u2, u3, u4, u5, u6⟩ := h1
  obtain ⟨v1, v2, v3, v4, v5, v6⟩ := h2
  exact ⟨u1.trans v1, u2.trans v2, u3.trans v3, u4.trans v4, u5.trans v5, u6.trans v6⟩

theorem getCellState_eq (oc : OccupancyCloud) (c : ℤ × ℤ × ℤ) :
    getCellState oc c.1 c.2.1 c.2.2 =
      if cellInB oc c then gridAt oc c else StateOutOfBounds := by
  unfold getCellState cellInB gridAt
  by_cases h : 0 ≤ c.1 ∧ c.1 < oc.CellsX ∧ 0 ≤ c.2.1 ∧ c.2.1 < oc.CellsY ∧
      0 ≤ c.2.2 ∧ c.2.2 < oc.CellsZ
  · rw [if_pos h, if_neg]
    omega
  · rw [if_neg h, if_pos]
    omega

theorem setCellState_fields (oc : OccupancyCloud) (ix iy iz : ℤ) (s : PointState) :
    fieldsEq (setCellState oc ix iy iz s) oc := by
  unfold setCellState
  split_ifs <;> exact fieldsEq_refl _

theorem setCellState_gridAt (oc : OccupancyCloud) (ix iy iz : ℤ) (s : PointState)
    (x : ℤ × ℤ × ℤ) :
    gridAt (setCellState oc ix iy iz s) x =
      if x = (ix, iy, iz) ∧ cellInB oc (ix, iy, iz) then s else gridAt oc x := by
  unfold setCellState cellInB gridAt
  by_cases hb : 0 ≤ ix ∧ ix < oc.CellsX ∧ 0 ≤ iy ∧ iy < oc.CellsY ∧ 0 ≤ iz ∧ iz < oc.CellsZ
  · rw [if_pos hb]
    by_cases hx : x = (ix, iy, iz)
    · subst hx
      simp [hb]
    · have hx' : ¬(x.1 = ix ∧ x.2.1 = iy ∧ x.2.2 = iz) := by
        intro hcon
        exact hx (by
          obtain ⟨e1, e2, e3⟩ := hcon
          exact Prod.ext e1 (Prod.ext e2 e3))
      simp [hx, hx']
  · rw [if_neg hb, if_neg]
    intro hcon
    exact hb hcon.2

/-- Pointwise description of a fold over cells whose body touches only the
current cell; duplicates in the visited list are harmless because every
per-cell transition used by the source is idempotent. -/
theorem foldl_step_pointwise (oc0 : OccupancyCloud)
    (step : OccupancyCloud → ℤ × ℤ × ℤ → OccupancyCloud)
    (φ : ℤ × ℤ × ℤ → PointState → PointState)
    (hfields : ∀ o c, fieldsEq (step o c) o)
    (heff : ∀ o c, fieldsEq o oc0 → ∀ x, gridAt (step o c) x =
      if x = c then φ c (gridAt o x) else gridAt o x)
    (hidem : ∀ c s, φ c (φ c s) = φ c s) :
    ∀ (l : List (ℤ × ℤ × ℤ)) (o : OccupancyCloud), fieldsEq o oc0 →
      fieldsEq (l.foldl step o) oc0 ∧
        ∀ x, gridAt (l.foldl step o) x = if x ∈ l then φ x (gridAt o x) else gridAt o x := by
  intro l
  induction l with
  | nil =>
    intro o ho
    refine ⟨ho, fun x => ?_⟩
    simp [List.foldl]
  | cons c t ih =>
    intro o ho
    have hstep : fieldsEq (step o c) oc0 := fieldsEq_trans (hfields o c) ho
    obtain ⟨hf, hg⟩ := ih (step o c) hstep
    refine ⟨hf, fun x => ?_⟩
    rw [List.foldl_cons, hg x, heff o c ho x]
    by_cases hxt : x ∈ t
    · by_cases hxc : x = c
      · subst hxc
        simp [hxt, hidem]
      · simp [hxt, hxc]
    · by_cases hxc : x = c
      · subst hxc
        simp [hxt]
      · simp [hxt, hxc]

/-- Per-cell effect of the clearing loop of UpdateObjectInCloud. -/
def clearPoint (oc : OccupancyCloud) (st : PointState) (c : ℤ × ℤ × ℤ)
    (s : PointState) : PointState :=
  if (if cellInB oc c then s else StateOutOfBounds) = st then
    (if cellInB oc c then StateEmpty else s)
  else s

/-- Per-cell effect of the marking loop of UpdateObjectInCloud. -/
def markPoint (oc : OccupancyCloud) (newPosition : Vector3) (mR : ℝ) (st : PointState)
    (c : ℤ × ℤ × ℤ) (s : PointState) : PointState :=
  if ((cellCenterOf oc c).Sub newPosition).Length < mR then
    (if (if cellInB oc c then s else StateOutOfBounds) = StateEmpty then
      (if cellInB oc c then st else s)
    else s)
  else s

theorem clearPoint_idem (oc : OccupancyCloud) (st : PointState) (c : ℤ × ℤ × ℤ)
    (s : PointState) : clearPoint oc st c (clearPoint oc st c s) = clearPoint oc st c s := by
  unfold clearPoint
  by_cases hb : cellInB oc c
  · simp only [if_pos hb]
    split_ifs <;> simp_all
  · simp only [if_neg hb]
    split_ifs <;> rfl

theorem markPoint_idem (oc : OccupancyCloud) (newPosition : Vector3) (mR : ℝ)
    (st : PointState) (c : ℤ × ℤ × ℤ) (s : PointState) :
    markPoint oc newPosition mR st c (markPoint oc newPosition mR st c s) =
      markPoint oc newPosition mR st c s := by
  unfold markPoint
  by_cases hs : ((cellCenterOf oc c).Sub newPosition).Length < mR
  · simp only [if_pos hs]
    by_cases hb : cellInB oc c
    · simp only [if_pos hb]
      split_ifs <;> simp_all
    · simp only [if_neg hb]
      split_ifs <;> simp_all
  · simp only [if_neg hs]

theorem cellInB_congr {o oc : OccupancyCloud} (h : fieldsEq o oc) (c : ℤ × ℤ × ℤ) :
    cellInB o c ↔ cellInB oc c := by
  unfold cellInB
  rw [h.2.2.2.1, h.2.2.2.2.1, h.2.2.2.2.2]

theorem cellCenterOf_congr {o oc : OccupancyCloud} (h : fieldsEq o oc) (c : ℤ × ℤ × ℤ) :
    cellCenterOf o c = cellCenterOf oc c := by
  unfold cellCenterOf
  rw [h.1, h.2.2.1]

theorem worldToGridCoords_congr {o oc : OccupancyCloud} (h : fieldsEq o oc) (p : Vector3) :
    worldToGridCoords o p = worldToGridCoords oc p := by
  obtain ⟨h1, h2, h3, h4, h5, h6⟩ := h
  unfold worldToGridCoords
  rw [h1, h3, h4, h5, h6]

theorem regionOf_congr {o oc : OccupancyCloud} (h : fieldsEq o oc) (p : Vector3) (r : ℝ) :
    regionOf o p r = regionOf oc p r := by
  unfold regionOf
  rw [worldToGridCoords_congr h, worldToGridCoords_congr h]

theorem markRadiusOf_congr {o oc : OccupancyCloud} (h : fieldsEq o oc) (s : Vector3) :
    markRadiusOf o s = markRadiusOf oc s := by
  unfold markRadiusOf
  rw [h.2.2.1]

theorem clearPoint_congr {o oc : OccupancyCloud} (h : fieldsEq o oc) (st : PointState)
    (c : ℤ × ℤ × ℤ) (s : PointState) : clearPoint o st c s = clearPoint oc st c s := by
  unfold clearPoint
  simp only [cellInB_congr h]

theorem markPoint_congr {o oc : OccupancyCloud} (h : fieldsEq o oc) (p : Vector3) (mR : ℝ)
    (st : PointState) (c : ℤ × ℤ × ℤ) (s : PointState) :
    markPoint o p mR st c s = markPoint oc p mR st c s := by
  unfold markPoint
  rw [cellCenterOf_congr h]
  simp only [cellInB_congr h]

/-- Restatement of setCellState_gridAt with a packed index triple. -/
theorem setCellState_gridAt3 (oc : OccupancyCloud) (c : ℤ × ℤ × ℤ) (s : PointState)
    (x : ℤ × ℤ × ℤ) :
    gridAt (setCellState oc c.1 c.2.1 c.2.2 s) x =
      if x = c ∧ cellInB oc c then s else gridAt oc x := by
  have h := setCellState_gridAt oc c.1 c.2.1 c.2.2 s x
  simpa using h

theorem clearStep_fields (newState : PointState) :
    ∀ (o : OccupancyCloud) (c : ℤ × ℤ × ℤ), fieldsEq (clearStep newState o c) o := by
  intro o c
  unfold clearStep
  split_ifs
  · exact setCellState_fields _ _ _ _ _
  · exact fieldsEq_refl o

theorem markStep_fields (newPosition : Vector3) (mR : ℝ) (newState : PointState) :
    ∀ (o : OccupancyCloud) (c : ℤ × ℤ × ℤ),
      fieldsEq (markStep newPosition mR newState o c) o := by
  intro o c
  unfold markStep
  split_ifs
  · exact setCellState_fields _ _ _ _ _
  · exact fieldsEq_refl o
  · exact fieldsEq_refl o

theorem clear_heff (oc : OccupancyCloud) (newState : PointState) :
    ∀ (o : OccupancyCloud) (c : ℤ × ℤ × ℤ), fieldsEq o oc → ∀ x,
      gridAt (clearStep newState o c) x =
        if x = c then clearPoint oc newState c (gridAt o x) else gridAt o x := by
  intro o c ho x
  have hget : getCellState o c.1 c.2.1 c.2.2 =
      if cellInB oc c then gridAt o c else StateOutOfBounds := by
    rw [getCellState_eq]
    simp only [cellInB_congr ho]
  unfold clearStep
  by_cases hc : getCellState o c.1 c.2.1 c.2.2 = newState
  · rw [if_pos hc, setCellState_gridAt3]
    by_cases hx : x = c
    · subst hx
      rw [hget] at hc
      rw [if_pos rfl]
      unfold clearPoint
      rw [if_pos hc]
      simp only [cellInB_congr ho]
      by_cases hb : cellInB oc x
      · rw [if_pos ⟨trivial, hb⟩, if_pos hb]
      · rw [if_neg (fun hcon => hb hcon.2), if_neg hb]
    · rw [if_neg (fun hcon => hx hcon.1), if_neg hx]
  · rw [if_neg hc]
    by_cases hx : x = c
    · subst hx
      rw [hget] at hc
      rw [if_pos rfl]
      unfold clearPoint
      rw [if_neg hc]
    · rw [if_neg hx]

theorem mark_heff (oc : OccupancyCloud) (newPosition : Vector3) (mR : ℝ)
    (newState : PointState) :
    ∀ (o : OccupancyCloud) (c : ℤ × ℤ × ℤ), fieldsEq o oc → ∀ x,
      gridAt (markStep newPosition mR newState o c) x =
        if x = c then markPoint oc newPosition mR newState c (gridAt o x) else gridAt o x := by
  intro o c ho x
  have hget : getCellState o c.1 c.2.1 c.2.2 =
      if cellInB oc c then gridAt o c else StateOutOfBounds := by
    rw [getCellState_eq]
    simp only [cellInB_congr ho]
  unfold markStep
  rw [cellCenterOf_congr ho]
  by_cases hs : ((cellCenterOf oc c).Sub newPosition).Length < mR
  · rw [if_pos hs]
    by_cases hc : getCellState o c.1 c.2.1 c.2.2 = StateEmpty
    · rw [if_pos hc, setCellState_gridAt3]
      by_cases hx : x = c
      · subst hx
        rw [hget] at hc
        rw [if_pos rfl]
        unfold markPoint
        rw [if_pos hs, if_pos hc]
        simp only [cellInB_congr ho]
        by_cases hb : cellInB oc x
        · rw [if_pos ⟨trivial, hb⟩, if_pos hb]
        · rw [if_neg (fun hcon => hb hcon.2), if_neg hb]
      · rw [if_neg (fun hcon => hx hcon.1), if_neg hx]
    · rw [if_neg hc]
      by_cases hx : x = c
      · subst hx
        rw [hget] at hc
        rw [if_pos rfl]
        unfold markPoint
        rw [if_pos hs, if_neg hc]
      · rw [if_neg hx]
  · rw [if_neg hs]
    by_cases hx : x = c
    · subst hx
      rw [if_pos rfl]
      unfold markPoint
      rw [if_neg hs]
    · rw [if_neg hx]

/-- Pointwise description of a full UpdateObjectInCloud call: first the clear
transition on the box around the old position, then the mark transition on
the box around the new position. -/
theorem UpdateObjectInCloud_pointwise (oc : OccupancyCloud) (objName : String)
    (oldPosition newPosition objScale : Vector3) (newState : PointState) :
    fieldsEq (UpdateObjectInCloud oc objName oldPosition newPosition objScale newState) oc ∧
      ∀ x, gridAt (UpdateObjectInCloud oc objName oldPosition newPosition objScale newState) x =
        (if x ∈ regionOf oc newPosition (markRadiusOf oc objScale) then
          markPoint oc newPosition (markRadiusOf oc objScale) newState x
            (if x ∈ regionOf oc oldPosition (markRadiusOf oc objScale) then
              clearPoint oc newState x (gridAt oc x)
            else gridAt oc x)
        else
          (if x ∈ regionOf oc oldPosition (markRadiusOf oc objScale) then
            clearPoint oc newState x (gridAt oc x)
          else gridAt oc x)) := by
  obtain ⟨hF1, hG1⟩ := foldl_step_pointwise oc (clearStep newState) (clearPoint oc newState)
    (clearStep_fields newState) (clear_heff oc newState) (clearPoint_idem oc newState)
    (regionOf oc oldPosition (markRadiusOf oc objScale)) oc (fieldsEq_refl oc)
  have hdef : UpdateObjectInCloud oc objName oldPosition newPosition objScale newState =
      (regionOf ((regionOf oc oldPosition (markRadiusOf oc objScale)).foldl
          (clearStep newState) oc) newPosition (markRadiusOf oc objScale)).foldl
        (markStep newPosition (markRadiusOf oc objScale) newState)
        ((regionOf oc oldPosition (markRadiusOf oc objScale)).foldl (clearStep newState) oc) :=
    rfl
  obtain ⟨hF2, hG2⟩ := foldl_step_pointwise oc
    (markStep newPosition (markRadiusOf oc objScale) newState)
    (markPoint oc newPosition (markRadiusOf oc objScale) newState)
    (markStep_fields newPosition (markRadiusOf oc objScale) newState)
    (mark_heff oc newPosition (markRadiusOf oc objScale) newState)
    (markPoint_idem oc newPosition (markRadiusOf oc objScale) newState)
    (regionOf oc newPosition (markRadiusOf oc objScale))
    ((regionOf oc oldPosition (markRadiusOf oc objScale)).foldl (clearStep newState) oc) hF1
  rw [hdef, regionOf_congr hF1]
  refine ⟨hF2, fun x => ?_⟩
  rw [hG2 x, hG1 x]

/-! ## Claims C5 and C4 about UpdateObjectInCloud -/

theorem clearPoint_static (oc : OccupancyCloud) (st : PointState) (c : ℤ × ℤ × ℤ)
    (hdyn : st = StateSoundSource ∨ st = StateListener) :
    clearPoint oc st c StateStaticObstacle = StateStaticObstacle := by
  unfold clearPoint
  rcases hdyn with rfl | rfl <;> by_cases hb : cellInB oc c <;> simp [hb]

theorem markPoint_static (oc : OccupancyCloud) (p : Vector3) (mR : ℝ) (st : PointState)
    (c : ℤ × ℤ × ℤ) : markPoint oc p mR st c StateStaticObstacle = StateStaticObstacle := by
  unfold markPoint
  by_cases hs : ((cellCenterOf oc c).Sub p).Length < mR <;>
    by_cases hb : cellInB oc c <;> simp [hs, hb]

/-- C5: for every call of UpdateObjectInCloud with a dynamic role (sound
source or listener), every grid cell that held StateStaticObstacle before the
call still holds StateStaticObstacle afterwards: dynamic occupants never
overwrite a static-obstacle cell.  (Each cell holds exactly one state by
construction: the grid maps every cell to a single PointState value.) -/
theorem updateObjectInCloud_preserves_static (oc : OccupancyCloud) (objName : String)
    (oldPosition newPosition objScale : Vector3) (newState : PointState)
    (hdyn : newState = StateSoundSource ∨ newState = StateListener) :
    ∀ ix iy iz, oc.Grid ix iy iz = StateStaticObstacle →
      (UpdateObjectInCloud oc objName oldPosition newPosition objScale newState).Grid ix iy iz =
        StateStaticObstacle := by
  intro ix iy iz hst
  have h := (UpdateObjectInCloud_pointwise oc objName oldPosition newPosition objScale
    newState).2 (ix, iy, iz)
  have hg : gridAt oc (ix, iy, iz) = StateStaticObstacle := hst
  show gridAt (UpdateObjectInCloud oc objName oldPosition newPosition objScale newState)
    (ix, iy, iz) = StateStaticObstacle
  rw [h, hg]
  split_ifs <;>
    simp [clearPoint_static oc newState _ hdyn, markPoint_static]

/-- Cloud used by concrete occupancy-grid witnesses: one static cell filling
the room. -/
def cloudStaticW : OccupancyCloud :=
  { Grid := fun _ _ _ => StateStaticObstacle, RoomMin := ⟨0, 0, 0⟩, RoomMax := ⟨4, 4, 4⟩,
    CellSize := ⟨4, 4, 4⟩, CellsX := 1, CellsY := 1, CellsZ := 1 }

/-- C5 witness: updating the sound source inside a cloud whose single cell is
a static obstacle leaves that cell static. -/
theorem updateObjectInCloud_preserves_static_witness :
    (UpdateObjectInCloud cloudStaticW "SoundSource" ⟨2, 2, 2⟩ ⟨2, 2, 2⟩ ⟨1, 1, 1⟩
      StateSoundSource).Grid 0 0 0 = StateStaticObstacle :=
  updateObjectInCloud_preserves_static cloudStaticW "SoundSource" ⟨2, 2, 2⟩ ⟨2, 2, 2⟩
    ⟨1, 1, 1⟩ StateSoundSource (Or.inl rfl) 0 0 0 rfl

theorem clearPoint_notInB {oc : OccupancyCloud} {c : ℤ × ℤ × ℤ} (hb : ¬ cellInB oc c)
    (st : PointState) (hdyn : st = StateSoundSource ∨ st = StateListener) (s : PointState) :
    clearPoint oc st c s = s := by
  unfold clearPoint
  rcases hdyn with rfl | rfl <;> simp [hb]

theorem markPoint_notInB {oc : OccupancyCloud} {c : ℤ × ℤ × ℤ} (hb : ¬ cellInB oc c)
    (p : Vector3) (mR : ℝ) (st : PointState) (s : PointState) :
    markPoint oc p mR st c s = s := by
  unfold markPoint
  by_cases hs : ((cellCenterOf oc c).Sub p).Length < mR <;> simp [hs, hb]

theorem clearPoint_inB {oc : OccupancyCloud} {c : ℤ × ℤ × ℤ} (hb : cellInB oc c)
    (st : PointState) (s : PointState) :
    clearPoint oc st c s = if s = st then StateEmpty else s := by
  unfold clearPoint
  simp [hb]

theorem markPoint_inB {oc : OccupancyCloud} {c : ℤ × ℤ × ℤ} (hb : cellInB oc c)
    (p : Vector3) (mR : ℝ) (st : PointState) (s : PointState) :
    markPoint oc p mR st c s =
      if ((cellCenterOf oc c).Sub p).Length < mR then
        (if s = StateEmpty then st else s)
      else s := by
  unfold markPoint
  simp [hb]

/-- C4 amended: the round trip UpdateObjectInCloud(posA, posB) followed by
UpdateObjectInCloud(posB, posA) restores every cell exactly, provided the
grid is consistent with the object having been marked at posA before the
first call: every cell tagged with the moving role lies in the mark region of
posA (inside the visited index box and strictly inside the mark sphere), and
no in-bounds cell of that mark region is empty.  Without this consistency
precondition the round trip can lose or invent role cells (see the
counterexample). -/
theorem updateObjectInCloud_roundtrip (oc : OccupancyCloud) (objName : String)
    (posA posB objScale : Vector3) (role : PointState)
    (hdyn : role = StateSoundSource ∨ role = StateListener)
    (hrole : ∀ c, cellInB oc c → gridAt oc c = role →
      c ∈ regionOf oc posA (markRadiusOf oc objScale) ∧
        ((cellCenterOf oc c).Sub posA).Length < markRadiusOf oc objScale)
    (hfull : ∀ c, cellInB oc c →
      c ∈ regionOf oc posA (markRadiusOf oc objScale) →
      ((cellCenterOf oc c).Sub posA).Length < markRadiusOf oc objScale →
      gridAt oc c ≠ StateEmpty) :
    ∀ ix iy iz,
      (UpdateObjectInCloud (UpdateObjectInCloud oc objName posA posB objScale role)
          objName posB posA objScale role).Grid ix iy iz = oc.Grid ix iy iz := by
  have hroleEmpty : role ≠ StateEmpty := by
    rcases hdyn with rfl | rfl <;> intro hcon <;> exact PointState.noConfusion hcon
  have hroleStatic : StateStaticObstacle ≠ role := by
    rcases hdyn with rfl | rfl <;> intro hcon <;> exact PointState.noConfusion hcon
  intro ix iy iz
  obtain ⟨hF1, hP1⟩ := UpdateObjectInCloud_pointwise oc objName posA posB objScale role
  obtain ⟨hF2, hP2⟩ :=
    UpdateObjectInCloud_pointwise (UpdateObjectInCloud oc objName posA posB objScale role)
      objName posB posA objScale role
  have hmr : markRadiusOf (UpdateObjectInCloud oc objName posA posB objScale role) objScale =
      markRadiusOf oc objScale := markRadiusOf_congr hF1 _
  show gridAt (UpdateObjectInCloud (UpdateObjectInCloud oc objName posA posB objScale role)
    objName posB posA objScale role) (ix, iy, iz) = gridAt oc (ix, iy, iz)
  set x : ℤ × ℤ × ℤ := (ix, iy, iz) with hx
  rw [hP2 x, hmr, regionOf_congr hF1, regionOf_congr hF1, markPoint_congr hF1,
    clearPoint_congr hF1, hP1 x]
  set mR := markRadiusOf oc objScale with hmR
  set RA := regionOf oc posA mR with hRA
  set RB := regionOf oc posB mR with hRB
  set g := gridAt oc x with hgdef
  by_cases hb : cellInB oc x
  · have hEmptyRole : StateEmpty ≠ role := Ne.symm hroleEmpty
    by_cases hgr : g = role
    · obtain ⟨hmemA, hsphA⟩ := hrole x hb hgr
      by_cases hmB : x ∈ RB
      · by_cases hsB : ((cellCenterOf oc x).Sub posB).Length < mR
        · simp [hmemA, hmB, hsB, hsphA, clearPoint_inB hb, markPoint_inB hb, hgr,
            hroleEmpty, hEmptyRole]
        · simp [hmemA, hmB, hsB, hsphA, clearPoint_inB hb, markPoint_inB hb, hgr,
            hroleEmpty, hEmptyRole]
      · simp [hmemA, hmB, hsphA, clearPoint_inB hb, markPoint_inB hb, hgr,
          hroleEmpty, hEmptyRole]
    · by_cases hge : g = StateEmpty
      · have hnotA : ¬ (x ∈ RA ∧ ((cellCenterOf oc x).Sub posA).Length < mR) := by
          rintro ⟨hm, hs⟩
          exact hfull x hb hm hs hge
        by_cases hmA : x ∈ RA
        · have hsA : ¬ ((cellCenterOf oc x).Sub posA).Length < mR := fun hs =>
            hnotA ⟨hmA, hs⟩
          by_cases hmB : x ∈ RB
          · by_cases hsB : ((cellCenterOf oc x).Sub posB).Length < mR
            · simp [hmA, hmB, hsB, hsA, clearPoint_inB hb, markPoint_inB hb, hge,
                hroleEmpty, hEmptyRole]
            · simp [hmA, hmB, hsB, hsA, clearPoint_inB hb, markPoint_inB hb, hge,
                hroleEmpty, hEmptyRole]
          · simp [hmA, hmB, hsA, clearPoint_inB hb, markPoint_inB hb, hge,
              hroleEmpty, hEmptyRole]
        · by_cases hmB : x ∈ RB
          · by_cases hsB : ((cellCenterOf oc x).Sub posB).Length < mR
            · simp [hmA, hmB, hsB, clearPoint_inB hb, markPoint_inB hb, hge,
                hroleEmpty, hEmptyRole]
            · simp [hmA, hmB, hsB, clearPoint_inB hb, markPoint_inB hb, hge,
                hroleEmpty, hEmptyRole]
          · simp [hmA, hmB, hge]
      · -- the cell holds a state other than the role and other than empty
        have h1 : ∀ s, s = g → clearPoint oc role x s = s := by
          intro s hs
          rw [clearPoint_inB hb]
          simp [hs, hgr]
        have h2 : ∀ p, markPoint oc p mR role x g = g := by
          intro p
          rw [markPoint_inB hb]
          simp [hge]
        by_cases hmA : x ∈ RA <;> by_cases hmB : x ∈ RB <;>
          simp [hmA, hmB, h1 g rfl, h2]
  · simp [clearPoint_notInB hb role hdyn, markPoint_notInB hb]

theorem Vector3.length_lt_iff (v : Vector3) (r : ℝ) (hr : 0 < r) :
    v.Length < r ↔ v.LengthSquared < r ^ 2 :=
  Real.sqrt_lt' hr

/-- Cloud used by the C4 witness: a 4 x 1 x 1 grid whose two middle cells
carry the sound-source role and whose outer cells are static, consistent with
the source object sitting at (2,2,2). -/
def cloudRound : OccupancyCloud :=
  { Grid := fun ix _ _ => if ix = 1 ∨ ix = 2 then StateSoundSource else StateStaticObstacle,
    RoomMin := ⟨0, 0, 0⟩, RoomMax := ⟨4, 4, 4⟩, CellSize := ⟨1, 4, 4⟩,
    CellsX := 4, CellsY := 1, CellsZ := 1 }

theorem cloudRound_mr : markRadiusOf cloudRound ⟨1, 1, 1⟩ = 1.5 := by
  unfold markRadiusOf cloudRound
  norm_num

theorem cloudRound_regB : regionOf cloudRound ⟨2, 2, 2⟩ 1.5 = cellCube 0 3 0 0 0 0 := by
  unfold regionOf cloudRound worldToGridCoords clampInt Vector3.Sub Vector3.Add
  norm_num

/-- C4 witness: with a grid consistent with the object marked at (2,2,2), the
round trip through the same position restores the first role cell. -/
theorem updateObjectInCloud_roundtrip_witness :
    (UpdateObjectInCloud (UpdateObjectInCloud cloudRound "SoundSource" ⟨2, 2, 2⟩ ⟨2, 2, 2⟩
        ⟨1, 1, 1⟩ StateSoundSource) "SoundSource" ⟨2, 2, 2⟩ ⟨2, 2, 2⟩ ⟨1, 1, 1⟩
        StateSoundSource).Grid 1 0 0 = cloudRound.Grid 1 0 0 := by
  refine updateObjectInCloud_roundtrip cloudRound "SoundSource" ⟨2, 2, 2⟩ ⟨2, 2, 2⟩ ⟨1, 1, 1⟩
    StateSoundSource (Or.inl rfl) ?_ ?_ 1 0 0
  · intro c hb hg
    have hb' : 0 ≤ c.1 ∧ c.1 < 4 ∧ 0 ≤ c.2.1 ∧ c.2.1 < 1 ∧ 0 ≤ c.2.2 ∧ c.2.2 < 1 := hb
    have hg' : (if c.1 = 1 ∨ c.1 = 2 then StateSoundSource else StateStaticObstacle) =
        StateSoundSource := hg
    have hgr : c.1 = 1 ∨ c.1 = 2 := by
      by_cases h12 : c.1 = 1 ∨ c.1 = 2
      · exact h12
      · rw [if_neg h12] at hg'
        exact absurd hg' (by decide)
    have hc21 : c.2.1 = 0 := by omega
    have hc22 : c.2.2 = 0 := by omega
    rw [cloudRound_mr, cloudRound_regB]
    constructor
    · rw [mem_cellCube]
      omega
    · rw [Vector3.length_lt_iff _ _ (by norm_num)]
      unfold cellCenterOf cloudRound Vector3.Sub Vector3.LengthSquared
      rcases hgr with h | h <;> rw [h, hc21, hc22] <;> norm_num
  · intro c hb hm hs hcon
    have hcon' : (if c.1 = 1 ∨ c.1 = 2 then StateSoundSource else StateStaticObstacle) =
        StateEmpty := hcon
    split_ifs at hcon'

/-- Cloud used by the C4 counterexample: same geometry as cloudRound, but the
role cell at index 1 is stale — the object is nowhere near it. -/
def cloudStale : OccupancyCloud :=
  { Grid := fun ix _ _ => if ix = 1 then StateSoundSource else StateEmpty,
    RoomMin := ⟨0, 0, 0⟩, RoomMax := ⟨4, 4, 4⟩, CellSize := ⟨1, 4, 4⟩,
    CellsX := 4, CellsY := 1, CellsZ := 1 }

theorem cloudStale_mr : markRadiusOf cloudStale ⟨1, 1, 1⟩ = 1.5 := by
  unfold markRadiusOf cloudStale
  norm_num

theorem cloudStale_regB : regionOf cloudStale ⟨2, 2, 2⟩ 1.5 = cellCube 0 3 0 0 0 0 := by
  unfold regionOf cloudStale worldToGridCoords clampInt Vector3.Sub Vector3.Add
  norm_num

theorem cloudStale_regA :
    regionOf cloudStale ⟨100, 100, 100⟩ 1.5 = cellCube (-1) (-1) (-1) (-1) (-1) (-1) := by
  unfold regionOf cloudStale worldToGridCoords clampInt Vector3.Sub Vector3.Add
  norm_num

/-- C4 counterexample: for the cloud with a stale role cell, the round trip
update(obj, posA, posB) then update(obj, posB, posA) with posA = (100,100,100)
and posB = (2,2,2) does not restore the dynamic-cell classification: the cell
(1,0,0) holds the sound-source role before the two calls and is empty after
them, because the second call clears it near posB while the first call never
owned it near posA. -/
theorem updateObjectInCloud_roundtrip_counterexample :
    cloudStale.Grid 1 0 0 = StateSoundSource ∧
      (UpdateObjectInCloud (UpdateObjectInCloud cloudStale "SoundSource" ⟨100, 100, 100⟩
          ⟨2, 2, 2⟩ ⟨1, 1, 1⟩ StateSoundSource) "SoundSource" ⟨2, 2, 2⟩ ⟨100, 100, 100⟩
          ⟨1, 1, 1⟩ StateSoundSource).Grid 1 0 0 = StateEmpty := by
  constructor
  · simp [cloudStale]
  · obtain ⟨hF1, hP1⟩ := UpdateObjectInCloud_pointwise cloudStale "SoundSource"
      ⟨100, 100, 100⟩ ⟨2, 2, 2⟩ ⟨1, 1, 1⟩ StateSoundSource
    obtain ⟨hF2, hP2⟩ := UpdateObjectInCloud_pointwise
      (UpdateObjectInCloud cloudStale "SoundSource" ⟨100, 100, 100⟩ ⟨2, 2, 2⟩ ⟨1, 1, 1⟩
        StateSoundSource) "SoundSource" ⟨2, 2, 2⟩ ⟨100, 100, 100⟩ ⟨1, 1, 1⟩ StateSoundSource
    have hb : cellInB cloudStale (1, 0, 0) := by
      unfold cellInB cloudStale
      norm_num
    have hmemA : ((1 : ℤ), (0 : ℤ), (0 : ℤ)) ∉ cellCube (-1) (-1) (-1) (-1) (-1) (-1) := by
      simp [mem_cellCube]
    have hmemB : ((1 : ℤ), (0 : ℤ), (0 : ℤ)) ∈ cellCube 0 3 0 0 0 0 := by
      simp [mem_cellCube]
    show gridAt (UpdateObjectInCloud (UpdateObjectInCloud cloudStale "SoundSource"
      ⟨100, 100, 100⟩ ⟨2, 2, 2⟩ ⟨1, 1, 1⟩ StateSoundSource) "SoundSource" ⟨2, 2, 2⟩
      ⟨100, 100, 100⟩ ⟨1, 1, 1⟩ StateSoundSource) (1, 0, 0) = StateEmpty
    rw [hP2 (1, 0, 0), markRadiusOf_congr hF1, cloudStale_mr, regionOf_congr hF1,
      regionOf_congr hF1, cloudStale_regA, cloudStale_regB, markPoint_congr hF1,
      clearPoint_congr hF1, hP1 (1, 0, 0), cloudStale_mr, cloudStale_regA, cloudStale_regB]
    have hg : gridAt cloudStale (1, 0, 0) = StateSoundSource := by
      simp [gridAt, cloudStale]
    rw [if_neg hmemA, if_pos hmemB, if_pos hmemB, if_neg hmemA, hg, markPoint_inB hb]
    simp only [reduceCtorEq, if_false, ite_self]
    rw [clearPoint_inB hb]
    simp

/-! ## Fibonacci table (source: precomputeFibonacci in part_000) -/

/-- Two-complement wrap of 64-bit signed integer addition, as performed by the
Go int type on the wasm target. -/
def wrap64 (x : ℤ) : ℤ := (x + 2 ^ 63) % 2 ^ 64 - 2 ^ 63

/-- precomputeFibonacci; the n parameter is a count (the program calls it with
the constant cap index 20), the slice becomes a list initialised with zeros.
The n >= 0 guard of the source is vacuous for a natural number argument. -/
def precomputeFibonacci (n : ℕ) : List ℤ :=
  let fib0 := (List.replicate (n + 1) (0 : ℤ)).set 0 0
  let fib1 := if 1 ≤ n then fib0.set 1 1 else fib0
  (List.range' 2 (n - 1)).foldl
    (fun fib i =>
      let s := wrap64 (fib.getD (i - 1) 0 + fib.getD (i - 2) 0)
      fib.set i (if s < 0 then fib.getD (i - 1) 0 else s))
    fib1

/-- Global table, initialised in main with the cap index. -/
def fibonacciSequence : List ℤ := precomputeFibonacci FIBONACCI_SCORE_CAP_INDEX.toNat

/-- C7: after precomputeFibonacci with n equal to the cap index 20 the table
satisfies fib 0 = 0, fib 1 = 1 and the Fibonacci recurrence for i = 2..20 (at
this size no sum overflows, so the overflow clamp never replaces a sum and no
entry wraps negative), and the table is monotonically non-decreasing. -/
theorem precomputeFibonacci_spec :
    fibonacciSequence.getD 0 0 = 0 ∧ fibonacciSequence.getD 1 0 = 1 ∧
      (∀ i : Fin 19, fibonacciSequence.getD (i.1 + 2) 0 =
        fibonacciSequence.getD (i.1 + 1) 0 + fibonacciSequence.getD i.1 0) ∧
      (∀ i : Fin 21, 0 ≤ fibonacciSequence.getD i.1 0) ∧
      (∀ i : Fin 20, fibonacciSequence.getD i.1 0 ≤ fibonacciSequence.getD (i.1 + 1) 0) := by
  set_option maxRecDepth 10000 in decide

/-! ## Scene objects and raycasting (source: scene.go, raycaster.go) -/

/-- SceneObject with the fields the core reads; material, rotation handling
and identifiers used only for rendering are dropped.  Go pointer comparisons
against a possibly nil object become equality with an Option value. -/
structure SceneObject where
  Name : String
  Position : Vector3
  Rotation : Vector3
  Scale : Vector3
  Visible : Bool
  IsStatic : Bool
  ShapeType : String

structure RayIntersectionResult where
  Hit : Bool
  Point : Vector3
  Normal : Vector3
  Distance : ℝ
  Object : Option SceneObject

/-- One axis of the slab test of the box intersection; none models the break
after hitCurrentBox is set to false. -/
def slabAxis (rayDirComp oComp minB maxB : ℝ) (st : Option (ℝ × ℝ)) : Option (ℝ × ℝ) :=
  match st with
  | none => none
  | some (tMin, tMax) =>
    if |rayDirComp| < EPSILON then
      (if oComp < minB ∨ oComp > maxB then none else some (tMin, tMax))
    else
      let invD := 1.0 / rayDirComp
      let t0 := (minB - oComp) * invD
      let t1 := (maxB - oComp) * invD
      let t0s := if invD < 0 then t1 else t0
      let t1s := if invD < 0 then t0 else t1
      let tMin2 := if t0s > tMin then t0s else tMin
      let tMax2 := if t1s < tMax then t1s else tMax
      if tMin2 > tMax2 then none else some (tMin2, tMax2)

/-- The X, Y, Z slab loop of the box test, entry interval initialised to
(0, maxDist). -/
def boxSlab (origin direction : Vector3) (maxDist : ℝ) (minBound maxBound : Vector3) :
    Option (ℝ × ℝ) :=
  slabAxis direction.Z origin.Z minBound.Z maxBound.Z
    (slabAxis direction.Y origin.Y minBound.Y maxBound.Y
      (slabAxis direction.X origin.X minBound.X maxBound.X (some (0.0, maxDist))))

/-- The hitDistance local variable of the per-object block of performRaycast:
-1 encodes no acceptable intersection, exactly as in the source. -/
def bodyHitDistance (origin direction : Vector3) (maxDist closestDist : ℝ)
    (obj : SceneObject) : ℝ :=
  if obj.ShapeType = "sphere" then
    let oc := origin.Sub obj.Position
    let a := direction.Dot direction
    let b := 2.0 * oc.Dot direction
    let c := oc.Dot oc - obj.Scale.X * obj.Scale.X
    let discriminant := b * b - 4 * a * c
    if discriminant ≥ 0 then
      (let t := (-b - Real.sqrt discriminant) / (2.0 * a)
       if t > EPSILON ∧ t < closestDist then t else -1)
    else -1
  else if obj.ShapeType = "box" then
    let minBound := obj.Position.Sub (obj.Scale.Scale 0.5)
    let maxBound := obj.Position.Add (obj.Scale.Scale 0.5)
    match boxSlab origin direction maxDist minBound maxBound with
    | none => -1
    | some (tMin, _) => if tMin > EPSILON ∧ tMin < closestDist then tMin else -1
  else -1

/-- Normal computation of performRaycast at an accepted hit. -/
def hitNormal (origin direction : Vector3) (hitDistance : ℝ) (obj : SceneObject)
    (prev : Vector3) : Vector3 :=
  if obj.ShapeType = "sphere" then
    ((origin.Add (direction.Scale hitDistance)).Sub obj.Position).Normalize
  else if obj.ShapeType = "box" then
    let p := origin.Add (direction.Scale hitDistance)
    let c := obj.Position
    let d := obj.Scale.Scale 0.5
    if |p.X - (c.X - d.X)| < EPSILON then ⟨-1, 0, 0⟩
    else if |p.X - (c.X + d.X)| < EPSILON then ⟨1, 0, 0⟩
    else if |p.Y - (c.Y - d.Y)| < EPSILON then ⟨0, -1, 0⟩
    else if |p.Y - (c.Y + d.Y)| < EPSILON then ⟨0, 1, 0⟩
    else if |p.Z - (c.Z - d.Z)| < EPSILON then ⟨0, 0, -1⟩
    else if |p.Z - (c.Z + d.Z)| < EPSILON then ⟨0, 0, 1⟩
    else (p.Sub c).Normalize
  else prev

/-- Loop body of performRaycast for one object. -/
def raycastBody (origin direction : Vector3) (maxDist : ℝ) (ignoreObject : Option SceneObject)
    (closestHit : RayIntersectionResult) (obj : SceneObject) : RayIntersectionResult :=
  if ignoreObject = some obj ∨ obj.Visible = false then closestHit
  else
    let hitDistance := bodyHitDistance origin direction maxDist closestHit.Distance obj
    if hitDistance > EPSILON ∧ hitDistance < closestHit.Distance then
      { Hit := true, Distance := hitDistance,
        Point := origin.Add (direction.Scale hitDistance),
        Normal := hitNormal origin direction hitDistance obj closestHit.Normal,
        Object := some obj }
    else closestHit

def performRaycast (origin direction : Vector3) (maxDist : ℝ)
    (objects : List SceneObject) (ignoreObject : Option SceneObject) : RayIntersectionResult :=
  objects.foldl (raycastBody origin direction maxDist ignoreObject)
    { Hit := false, Point := ⟨0, 0, 0⟩, Normal := ⟨0, 0, 0⟩, Distance := maxDist, Object := none }

/-- The intersection distance a primitive test computes, independently of the
running closest hit: the smaller sphere root, or the box entry parameter,
when it exceeds EPSILON (restates the per-primitive computation of
performRaycast for specification purposes). -/
def objectHitDistance (origin direction : Vector3) (maxDist : ℝ) (obj : SceneObject) :
    Option ℝ :=
  if obj.ShapeType = "sphere" then
    let oc := origin.Sub obj.Position
    let a := direction.Dot direction
    let b := 2.0 * oc.Dot direction
    let c := oc.Dot oc - obj.Scale.X * obj.Scale.X
    let discriminant := b * b - 4 * a * c
    if discriminant ≥ 0 then
      (let t := (-b - Real.sqrt discriminant) / (2.0 * a)
       if t > EPSILON then some t else none)
    else none
  else if obj.ShapeType = "box" then
    let minBound := obj.Position.Sub (obj.Scale.Scale 0.5)
    let maxBound := obj.Position.Add (obj.Scale.Scale 0.5)
    match boxSlab origin direction maxDist minBound maxBound with
    | none => none
    | some (tMin, _) => if tMin > EPSILON then some tMin else none
  else none

/-- The distances computed for the tested primitives of a raycast: visible,
non-ignored objects whose primitive test yields an acceptable distance. -/
def testedDistances (origin direction : Vector3) (maxDist : ℝ) (objects : List SceneObject)
    (ignoreObject : Option SceneObject) : List ℝ :=
  (objects.filter (fun obj => decide (¬ (ignoreObject = some obj ∨ obj.Visible = false)))).filterMap
    (objectHitDistance origin direction maxDist)

theorem objectHitDistance_pos {origin direction : Vector3} {maxDist : ℝ} {obj : SceneObject}
    {d : ℝ} (h : objectHitDistance origin direction maxDist obj = some d) : EPSILON < d := by
  unfold objectHitDistance at h
  by_cases h1 : obj.ShapeType = "sphere"
  · rw [if_pos h1] at h
    dsimp only at h
    split_ifs at h with h2 h3
    injection h with h5
    rw [← h5]
    exact h3
  · rw [if_neg h1] at h
    by_cases h2 : obj.ShapeType = "box"
    · rw [if_pos h2] at h
      dsimp only at h
      rcases hbs : boxSlab origin direction maxDist (obj.Position.Sub (obj.Scale.Scale 0.5))
          (obj.Position.Add (obj.Scale.Scale 0.5)) with _ | ⟨tMin, tMax⟩
      · rw [hbs] at h
        exact Option.noConfusion h
      · rw [hbs] at h
        dsimp only at h
        split_ifs at h with h3
        injection h with h5
        rw [← h5]
        exact h3
    · rw [if_neg h2] at h
      exact Option.noConfusion h

theorem raycastBody_skip {origin direction : Vector3} {maxDist : ℝ}
    {ignoreObject : Option SceneObject} {acc : RayIntersectionResult} {obj : SceneObject}
    (hskip : ignoreObject = some obj ∨ obj.Visible = false) :
    raycastBody origin direction maxDist ignoreObject acc obj = acc := by
  unfold raycastBody
  rw [if_pos hskip]

/-- Clipping by the running closest distance commutes with the standalone
per-primitive distance (quadratic shape of the sphere test). -/
theorem distance_clip_eq (D T cD : ℝ) :
    (if D ≥ 0 then (if T > EPSILON ∧ T < cD then T else -1) else -1) =
      (match (if D ≥ 0 then (if T > EPSILON then some T else none) else none : Option ℝ) with
       | some d => if d < cD then d else -1
       | none => -1) := by
  by_cases h1 : D ≥ 0
  · rw [if_pos h1, if_pos h1]
    by_cases h2 : T > EPSILON
    · rw [if_pos h2]
      dsimp only
      by_cases h3 : T < cD
      · rw [if_pos ⟨h2, h3⟩, if_pos h3]
      · rw [if_neg (fun hc => h3 hc.2), if_neg h3]
    · rw [if_neg (fun hc => h2 hc.1), if_neg h2]
  · rw [if_neg h1, if_neg h1]

theorem bodyHitDistance_eq (origin direction : Vector3) (maxDist cD : ℝ)
    (obj : SceneObject) :
    bodyHitDistance origin direction maxDist cD obj =
      match objectHitDistance origin direction maxDist obj with
      | some d => if d < cD then d else -1
      | none => -1 := by
  unfold bodyHitDistance objectHitDistance
  by_cases h1 : obj.ShapeType = "sphere"
  · rw [if_pos h1, if_pos h1]
    dsimp only
    exact distance_clip_eq _ _ _
  · rw [if_neg h1, if_neg h1]
    by_cases h2 : obj.ShapeType = "box"
    · rw [if_pos h2, if_pos h2]
      dsimp only
      rcases boxSlab origin direction maxDist (obj.Position.Sub (obj.Scale.Scale 0.5))
          (obj.Position.Add (obj.Scale.Scale 0.5)) with _ | ⟨tMin, tMax⟩
      · rfl
      · dsimp only
        by_cases h3 : tMin > EPSILON
        · rw [if_pos h3]
          dsimp only
          by_cases h4 : tMin < cD
          · rw [if_pos ⟨h3, h4⟩, if_pos h4]
          · rw [if_neg (fun hc => h4 hc.2), if_neg h4]
        · rw [if_neg (fun hc => h3 hc.1), if_neg h3]
    · rw [if_neg h2, if_neg h2]

theorem raycastBody_eq (origin direction : Vector3) (maxDist : ℝ)
    (ignoreObject : Option SceneObject) (acc : RayIntersectionResult) (obj : SceneObject)
    (hskip : ¬ (ignoreObject = some obj ∨ obj.Visible = false)) :
    raycastBody origin direction maxDist ignoreObject acc obj =
      match objectHitDistance origin direction maxDist obj with
      | some d =>
        if d < acc.Distance then
          { Hit := true, Distance := d, Point := origin.Add (direction.Scale d),
            Normal := hitNormal origin direction d obj acc.Normal, Object := some obj }
        else acc
      | none => acc := by
  unfold raycastBody
  rw [if_neg hskip]
  dsimp only
  rw [bodyHitDistance_eq]
  rcases h : objectHitDistance origin direction maxDist obj with _ | d
  · dsimp only
    rw [if_neg]
    intro hc
    have := hc.1
    norm_num [EPSILON] at this
  · dsimp only
    by_cases h4 : d < acc.Distance
    · simp only [h4, if_true]
      rw [if_pos ⟨objectHitDistance_pos h, trivial⟩]
    · simp only [h4, if_false]
      rw [if_neg]
      intro hc
      have := hc.1
      norm_num [EPSILON] at this

/-- Invariant carried through the performRaycast fold: ds lists the distances
computed so far, objs the objects processed so far. -/
def RaycastInv (origin direction : Vector3) (maxDist : ℝ) (ignoreObject : Option SceneObject)
    (ds : List ℝ) (objs : List SceneObject) (r : RayIntersectionResult) : Prop :=
  (r.Hit = false → r.Distance = maxDist ∧ r.Object = none ∧ ∀ d ∈ ds, ¬ d < maxDist) ∧
  (r.Hit = true →
    r.Distance ∈ ds ∧ EPSILON < r.Distance ∧ r.Distance < maxDist ∧
    r.Point = origin.Add (direction.Scale r.Distance) ∧
    (∃ o, r.Object = some o ∧ o ∈ objs ∧ o.Visible = true ∧ ¬ ignoreObject = some o) ∧
    ∀ d ∈ ds, d < maxDist → r.Distance ≤ d)

theorem RaycastInv_monoObjs {origin direction : Vector3} {maxDist : ℝ}
    {ignoreObject : Option SceneObject} {ds : List ℝ} {objs objs2 : List SceneObject}
    {r : RayIntersectionResult}
    (h : RaycastInv origin direction maxDist ignoreObject ds objs r)
    (hsub : ∀ o, o ∈ objs → o ∈ objs2) :
    RaycastInv origin direction maxDist ignoreObject ds objs2 r := by
  obtain ⟨hF, hT⟩ := h
  refine ⟨hF, fun hc => ?_⟩
  obtain ⟨h1, h2, h3, h4, ⟨o, ho1, ho2, ho3, ho4⟩, h6⟩ := hT hc
  exact ⟨h1, h2, h3, h4, ⟨o, ho1, hsub o ho2, ho3, ho4⟩, h6⟩

theorem testedDistances_cons_skip {origin direction : Vector3} {maxDist : ℝ}
    {ignoreObject : Option SceneObject} {obj : SceneObject} {t : List SceneObject}
    (hskip : ignoreObject = some obj ∨ obj.Visible = false) :
    testedDistances origin direction maxDist (obj :: t) ignoreObject =
      testedDistances origin direction maxDist t ignoreObject := by
  unfold testedDistances
  rw [List.filter_cons]
  simp [hskip]

theorem testedDistances_cons_none {origin direction : Vector3} {maxDist : ℝ}
    {ignoreObject : Option SceneObject} {obj : SceneObject} {t : List SceneObject}
    (hskip : ¬ (ignoreObject = some obj ∨ obj.Visible = false))
    (h : objectHitDistance origin direction maxDist obj = none) :
    testedDistances origin direction maxDist (obj :: t) ignoreObject =
      testedDistances origin direction maxDist t ignoreObject := by
  unfold testedDistances
  rw [List.filter_cons]
  simp [hskip, List.filterMap_cons, h]

theorem testedDistances_cons_some {origin direction : Vector3} {maxDist : ℝ}
    {ignoreObject : Option SceneObject} {obj : SceneObject} {t : List SceneObject} {d : ℝ}
    (hskip : ¬ (ignoreObject = some obj ∨ obj.Visible = false))
    (h : objectHitDistance origin direction maxDist obj = some d) :
    testedDistances origin direction maxDist (obj :: t) ignoreObject =
      d :: testedDistances origin direction maxDist t ignoreObject := by
  unfold testedDistances
  rw [List.filter_cons]
  simp [hskip, List.filterMap_cons, h]

theorem RaycastInv_step {origin direction : Vector3} {maxDist : ℝ}
    {ignoreObject : Option SceneObject} {ds0 : List ℝ} {objs0 : List SceneObject}
    {acc : RayIntersectionResult} {obj : SceneObject} {d : ℝ}
    (hskip : ¬ (ignoreObject = some obj ∨ obj.Visible = false))
    (hd : EPSILON < d)
    (hInv : RaycastInv origin direction maxDist ignoreObject ds0 objs0 acc) :
    RaycastInv origin direction maxDist ignoreObject (ds0 ++ [d]) (objs0 ++ [obj])
      (if d < acc.Distance then
        { Hit := true, Distance := d, Point := origin.Add (direction.Scale d),
          Normal := hitNormal origin direction d obj acc.Normal, Object := some obj }
      else acc) := by
  obtain ⟨hF, hT⟩ := hInv
  push_neg at hskip
  obtain ⟨hig, hvis⟩ := hskip
  have hvis' : obj.Visible = true := by
    revert hvis
    cases obj.Visible <;> simp
  have haccD : acc.Distance ≤ maxDist := by
    cases hH : acc.Hit
    · exact le_of_eq (hF hH).1
    · exact le_of_lt (hT hH).2.2.1
  by_cases h4 : d < acc.Distance
  · rw [if_pos h4]
    constructor
    · intro hc
      exact absurd hc (by simp)
    · intro _
      refine ⟨by simp, hd, lt_of_lt_of_le h4 haccD, rfl,
        ⟨obj, rfl, by simp, hvis', hig⟩, ?_⟩
      intro e he hlt
      rcases List.mem_append.mp he with h | h
      · cases hH : acc.Hit
        · exact absurd hlt ((hF hH).2.2 e h)
        · exact le_of_lt (lt_of_lt_of_le h4 ((hT hH).2.2.2.2.2 e h hlt))
      · simp at h
        subst h
        exact le_refl _
  · rw [if_neg h4]
    constructor
    · intro hc
      obtain ⟨hD0, hO0, hds⟩ := hF hc
      refine ⟨hD0, hO0, fun e he => ?_⟩
      rcases List.mem_append.mp he with h | h
      · exact hds e h
      · simp at h
        subst h
        rw [hD0] at h4
        exact h4
    · intro hc
      obtain ⟨hmem, hEps, hlt, hPt, ⟨o, ho1, ho2, ho3, ho4⟩, hmin⟩ := hT hc
      refine ⟨List.mem_append_left _ hmem, hEps, hlt, hPt,
        ⟨o, ho1, List.mem_append_left _ ho2, ho3, ho4⟩, ?_⟩
      intro e he hlte
      rcases List.mem_append.mp he with h | h
      · exact hmin e h hlte
      · simp at h
        subst h
        exact le_of_not_lt h4

theorem raycast_fold_spec (origin direction : Vector3) (maxDist : ℝ)
    (ignoreObject : Option SceneObject) :
    ∀ (l : List SceneObject) (ds0 : List ℝ) (objs0 : List SceneObject)
      (acc : RayIntersectionResult),
      RaycastInv origin direction maxDist ignoreObject ds0 objs0 acc →
      RaycastInv origin direction maxDist ignoreObject
        (ds0 ++ testedDistances origin direction maxDist l ignoreObject) (objs0 ++ l)
        (l.foldl (raycastBody origin direction maxDist ignoreObject) acc) := by
  intro l
  induction l with
  | nil =>
    intro ds0 objs0 acc h
    simpa [testedDistances] using h
  | cons obj t ih =>
    intro ds0 objs0 acc hInv
    rw [List.foldl_cons]
    by_cases hskip : ignoreObject = some obj ∨ obj.Visible = false
    · rw [raycastBody_skip hskip, testedDistances_cons_skip hskip]
      have := ih ds0 (objs0 ++ [obj]) acc
        (RaycastInv_monoObjs hInv (fun o ho => List.mem_append_left _ ho))
      simpa [List.append_assoc] using this
    · rcases hD : objectHitDistance origin direction maxDist obj with _ | d
      · rw [raycastBody_eq origin direction maxDist ignoreObject acc obj hskip, hD]
        dsimp only
        rw [testedDistances_cons_none hskip hD]
        have := ih ds0 (objs0 ++ [obj]) acc
          (RaycastInv_monoObjs hInv (fun o ho => List.mem_append_left _ ho))
        simpa [List.append_assoc] using this
      · rw [raycastBody_eq origin direction maxDist ignoreObject acc obj hskip, hD]
        dsimp only
        rw [testedDistances_cons_some hskip hD]
        have hstep := RaycastInv_step hskip (objectHitDistance_pos hD) hInv
        have := ih (ds0 ++ [d]) (objs0 ++ [obj]) _ hstep
        simpa [List.append_assoc] using this

/-- C3: if performRaycast reports a hit, the reported distance is one of the
computed per-primitive intersection distances of the tested (visible,
non-ignored) objects, lies strictly between EPSILON and maxDist, and is
minimal among all computed distances below maxDist; being a pure function of
the ordered object list, the raycast result is uniquely determined for a
fixed list, with ties kept by the earlier object in iteration order. -/
theorem performRaycast_closest (origin direction : Vector3) (maxDist : ℝ)
    (objects : List SceneObject) (ignoreObject : Option SceneObject)
    (h : (performRaycast origin direction maxDist objects ignoreObject).Hit = true) :
    (performRaycast origin direction maxDist objects ignoreObject).Distance ∈
        testedDistances origin direction maxDist objects ignoreObject ∧
      EPSILON < (performRaycast origin direction maxDist objects ignoreObject).Distance ∧
      (performRaycast origin direction maxDist objects ignoreObject).Distance < maxDist ∧
      ∀ d ∈ testedDistances origin direction maxDist objects ignoreObject, d < maxDist →
        (performRaycast origin direction maxDist objects ignoreObject).Distance ≤ d := by
  have hInit : RaycastInv origin direction maxDist ignoreObject [] []
      { Hit := false, Point := ⟨0, 0, 0⟩, Normal := ⟨0, 0, 0⟩, Distance := maxDist,
        Object := none } := by
    constructor
    · intro _
      exact ⟨rfl, rfl, by simp⟩
    · intro hc
      exact absurd hc (by simp)
  have hmain := raycast_fold_spec origin direction maxDist ignoreObject objects [] [] _ hInit
  simp only [List.nil_append] at hmain
  obtain ⟨hmem, hEps, hlt, _, _, hmin⟩ := hmain.2 h
  exact ⟨hmem, hEps, hlt, hmin⟩

/-- C10: a raycast that misses leaves the default result, distance maxDist
and no object; a raycast that hits returns a distance strictly between
EPSILON and maxDist, a point equal to origin plus direction scaled by that
distance, and a visible, non-ignored member of the object list. -/
theorem performRaycast_result_spec (origin direction : Vector3) (maxDist : ℝ)
    (objects : List SceneObject) (ignoreObject : Option SceneObject) :
    ((performRaycast origin direction maxDist objects ignoreObject).Hit = false →
        (performRaycast origin direction maxDist objects ignoreObject).Distance = maxDist ∧
        (performRaycast origin direction maxDist objects ignoreObject).Object = none) ∧
      ((performRaycast origin direction maxDist objects ignoreObject).Hit = true →
        EPSILON < (performRaycast origin direction maxDist objects ignoreObject).Distance ∧
        (performRaycast origin direction maxDist objects ignoreObject).Distance < maxDist ∧
        (performRaycast origin direction maxDist objects ignoreObject).Point =
          origin.Add (direction.Scale
            (performRaycast origin direction maxDist objects ignoreObject).Distance) ∧
        ∃ o, (performRaycast origin direction maxDist objects ignoreObject).Object = some o ∧
          o ∈ objects ∧ o.Visible = true ∧ ¬ ignoreObject = some o) := by
  have hInit : RaycastInv origin direction maxDist ignoreObject [] []
      { Hit := false, Point := ⟨0, 0, 0⟩, Normal := ⟨0, 0, 0⟩, Distance := maxDist,
        Object := none } := by
    constructor
    · intro _
      exact ⟨rfl, rfl, by simp⟩
    · intro hc
      exact absurd hc (by simp)
  have hmain := raycast_fold_spec origin direction maxDist ignoreObject objects [] [] _ hInit
  simp only [List.nil_append] at hmain
  constructor
  · intro hc
    exact ⟨(hmain.1 hc).1, (hmain.1 hc).2.1⟩
  · intro hc
    obtain ⟨_, hEps, hlt, hPt, hobj, _⟩ := hmain.2 hc
    exact ⟨hEps, hlt, hPt, hobj⟩

/-- Sphere obstacle used by concrete raycast witnesses. -/
def sphereObjW : SceneObject :=
  { Name := "Obstacle", Position := ⟨5, 0, 0⟩, Rotation := ⟨0, 0, 0⟩, Scale := ⟨1, 1, 1⟩,
    Visible := true, IsStatic := true, ShapeType := "sphere" }

theorem sqrt_four : Real.sqrt 4 = 2 := by
  rw [show (4 : ℝ) = 2 ^ 2 by norm_num, Real.sqrt_sq (by norm_num)]

theorem sphereObjW_bodyHitDistance :
    bodyHitDistance ⟨0, 0, 0⟩ ⟨1, 0, 0⟩ 50 50 sphereObjW = 4 := by
  unfold bodyHitDistance sphereObjW Vector3.Sub Vector3.Dot
  norm_num [EPSILON, sqrt_four]

theorem raycastW_eval :
    performRaycast ⟨0, 0, 0⟩ ⟨1, 0, 0⟩ 50 [sphereObjW] none =
      { Hit := true, Distance := 4,
        Point := Vector3.Add ⟨0, 0, 0⟩ (Vector3.Scale ⟨1, 0, 0⟩ 4),
        Normal := hitNormal ⟨0, 0, 0⟩ ⟨1, 0, 0⟩ 4 sphereObjW ⟨0, 0, 0⟩,
        Object := some sphereObjW } := by
  show raycastBody ⟨0, 0, 0⟩ ⟨1, 0, 0⟩ 50 none
    { Hit := false, Point := ⟨0, 0, 0⟩, Normal := ⟨0, 0, 0⟩, Distance := 50, Object := none }
    sphereObjW = _
  unfold raycastBody
  rw [if_neg (by simp [sphereObjW])]
  dsimp only
  rw [sphereObjW_bodyHitDistance, if_pos (by norm_num [EPSILON])]

/-- C3 witness: a ray from the origin along the X axis against a unit sphere
at (5,0,0) hits, and the theorem yields minimality of the reported distance
among the tested distances. -/
theorem performRaycast_closest_witness :
    (performRaycast ⟨0, 0, 0⟩ ⟨1, 0, 0⟩ 50 [sphereObjW] none).Hit = true ∧
      ((performRaycast ⟨0, 0, 0⟩ ⟨1, 0, 0⟩ 50 [sphereObjW] none).Distance ∈
          testedDistances ⟨0, 0, 0⟩ ⟨1, 0, 0⟩ 50 [sphereObjW] none ∧
        EPSILON < (performRaycast ⟨0, 0, 0⟩ ⟨1, 0, 0⟩ 50 [sphereObjW] none).Distance ∧
        (performRaycast ⟨0, 0, 0⟩ ⟨1, 0, 0⟩ 50 [sphereObjW] none).Distance < 50 ∧
        ∀ d ∈ testedDistances ⟨0, 0, 0⟩ ⟨1, 0, 0⟩ 50 [sphereObjW] none, d < 50 →
          (performRaycast ⟨0, 0, 0⟩ ⟨1, 0, 0⟩ 50 [sphereObjW] none).Distance ≤ d) := by
  have hHit : (performRaycast ⟨0, 0, 0⟩ ⟨1, 0, 0⟩ 50 [sphereObjW] none).Hit = true := by
    rw [raycastW_eval]
  exact ⟨hHit, performRaycast_closest ⟨0, 0, 0⟩ ⟨1, 0, 0⟩ 50 [sphereObjW] none hHit⟩

/-- C10 witness: the same concrete hit instantiates the result-shape theorem,
giving the point on the ray and a visible member object. -/
theorem performRaycast_result_spec_witness :
    (performRaycast ⟨0, 0, 0⟩ ⟨1, 0, 0⟩ 50 [sphereObjW] none).Hit = true ∧
      (EPSILON < (performRaycast ⟨0, 0, 0⟩ ⟨1, 0, 0⟩ 50 [sphereObjW] none).Distance ∧
        (performRaycast ⟨0, 0, 0⟩ ⟨1, 0, 0⟩ 50 [sphereObjW] none).Distance < 50 ∧
        (performRaycast ⟨0, 0, 0⟩ ⟨1, 0, 0⟩ 50 [sphereObjW] none).Point =
          Vector3.Add ⟨0, 0, 0⟩ (Vector3.Scale ⟨1, 0, 0⟩
            (performRaycast ⟨0, 0, 0⟩ ⟨1, 0, 0⟩ 50 [sphereObjW] none).Distance) ∧
        ∃ o, (performRaycast ⟨0, 0, 0⟩ ⟨1, 0, 0⟩ 50 [sphereObjW] none).Object = some o ∧
          o ∈ [sphereObjW] ∧ o.Visible = true ∧ ¬ (none : Option SceneObject) = some o) := by
  have hHit : (performRaycast ⟨0, 0, 0⟩ ⟨1, 0, 0⟩ 50 [sphereObjW] none).Hit = true := by
    rw [raycastW_eval]
  exact ⟨hHit, (performRaycast_result_spec ⟨0, 0, 0⟩ ⟨1, 0, 0⟩ 50 [sphereObjW] none).2 hHit⟩

/-! ## Placement optimizer (source: findAndApplyBestMoveForLearning) -/

/-- Ambient randomness of the Go math/rand package: each call site reads an
arbitrary stream value (floats in place of rand.Float64, naturals reduced
modulo n in place of rand.Intn). -/
structure Rng where
  floats : ℕ → ℝ
  ints : ℕ → ℕ

/-- The clamping of a candidate position to the room (including the repeated
Y clamp of the source). -/
def clampToRoom (oc : OccupancyCloud) (movingScale originalPos : Vector3)
    (dx dy dz : ℝ) : Vector3 :=
  let testPos : Vector3 :=
    ⟨max (oc.RoomMin.X + movingScale.X / 2) (min (oc.RoomMax.X - movingScale.X / 2)
        (originalPos.X + dx)),
     max (oc.RoomMin.Y + movingScale.Y / 2) (min (oc.RoomMax.Y - movingScale.Y / 2)
        (originalPos.Y + dy)),
     max (oc.RoomMin.Z + movingScale.Z / 2) (min (oc.RoomMax.Z - movingScale.Z / 2)
        (originalPos.Z + dz))⟩
  let minPossibleY := oc.RoomMin.Y + movingScale.Y / 2
  let testPos := if testPos.Y < minPossibleY then { testPos with Y := minPossibleY } else testPos
  let maxPossibleY := oc.RoomMax.Y - movingScale.Y / 2
  if testPos.Y > maxPossibleY then { testPos with Y := maxPossibleY } else testPos

/-- The componentwise epsilon duplicate test used for candidate and best
position lists. -/
def isDuplicateIn (l : List Vector3) (p : Vector3) : Bool :=
  l.any fun q => decide (|q.X - p.X| < EPSILON ∧ |q.Y - p.Y| < EPSILON ∧ |q.Z - p.Z| < EPSILON)

def optimizerOffsets : List ℝ := [-OPTIMIZATION_STEP_SIZE, 0, OPTIMIZATION_STEP_SIZE]

/-- Candidate generation of the optimizer step: the 3 x 3 x 3 offsets without
the zero move, clamped, validated against the cloud and deduplicated. -/
def candidateTestPositionsOf (oc : OccupancyCloud) (movingScale : Vector3)
    (movingObjCloudState : PointState) (otherObjCurrentPos otherObjScale : Vector3)
    (originalPos : Vector3) : List Vector3 :=
  optimizerOffsets.foldl (fun acc dx =>
    optimizerOffsets.foldl (fun acc dy =>
      optimizerOffsets.foldl (fun acc dz =>
        if dx = 0 ∧ dy = 0 ∧ dz = 0 then acc
        else
          let testPos := clampToRoom oc movingScale originalPos dx dy dz
          if IsPositionAttemptValid oc testPos movingScale movingObjCloudState
              otherObjCurrentPos otherObjScale = false then acc
          else if isDuplicateIn acc testPos then acc
          else acc ++ [testPos]) acc) acc) []

/-- The per-candidate score of the step: argument order of
calculateListenerScore depends on which object moves. -/
def scoreOfCandidate (calcScore : Vector3 → Vector3 → ℤ) (movingIsSource : Bool)
    (fixedPos testPos : Vector3) : ℤ :=
  if movingIsSource then calcScore testPos fixedPos else calcScore fixedPos testPos

/-- Scoring loop over the surviving candidates, keeping the best score and
the list of positions achieving it. -/
def evaluateCandidates (calcScore : Vector3 → Vector3 → ℤ) (movingIsSource : Bool)
    (fixedPos : Vector3) (goal : String) (init : ℤ × List Vector3)
    (cands : List Vector3) : ℤ × List Vector3 :=
  cands.foldl (fun st testPos =>
    let score := scoreOfCandidate calcScore movingIsSource fixedPos testPos
    if goal = "maximize" then
      (if score > st.1 then (score, [testPos])
       else if score = st.1 then
        (if isDuplicateIn st.2 testPos then st else (st.1, st.2 ++ [testPos]))
       else st)
    else st) init

/-- Selection policy of the step: improving move picked among ties, otherwise
possible randomized jump (validated, with fallback), otherwise a tie pick
preferring a non-original position. -/
def chooseNextPosition (oc : OccupancyCloud) (movingScale : Vector3)
    (movingObjCloudState : PointState) (otherObjCurrentPos otherObjScale : Vector3)
    (originalPos : Vector3) (randomJumpProbability explorationFactor : ℝ) (rng : Rng)
    (currentScore : ℤ) (best : ℤ × List Vector3) : Vector3 :=
  if best.2.length > 0 then
    (if best.1 > currentScore then
      best.2.getD (rng.ints 0 % best.2.length) originalPos
    else if rng.floats 0 < randomJumpProbability * explorationFactor then
      (let jumpMagnitude := (rng.floats 1 * 2.0 + 2.0) * explorationFactor
       let dx := (rng.floats 2 * 2 - 1) * OPTIMIZATION_STEP_SIZE * jumpMagnitude
       let dy := (rng.floats 3 * 0.5 - 0.25) * OPTIMIZATION_STEP_SIZE * jumpMagnitude
       let dz := (rng.floats 4 * 2 - 1) * OPTIMIZATION_STEP_SIZE * jumpMagnitude
       let jumpPos := clampToRoom oc movingScale originalPos dx dy dz
       if IsPositionAttemptValid oc jumpPos movingScale movingObjCloudState
           otherObjCurrentPos otherObjScale = true then jumpPos
       else if best.2.length > 0 then
         best.2.getD (rng.ints 1 % best.2.length) originalPos
       else originalPos)
    else if best.2.length > 0 then
      (let cp := best.2.getD (rng.ints 2 % best.2.length) originalPos
       if cp.X = originalPos.X ∧ cp.Y = originalPos.Y ∧ cp.Z = originalPos.Z ∧
           best.2.length > 1 then
         (let tempBests := best.2.filter fun bp =>
            decide (|bp.X - originalPos.X| > EPSILON ∨ |bp.Y - originalPos.Y| > EPSILON ∨
              |bp.Z - originalPos.Z| > EPSILON)
          if tempBests.length > 0 then
            tempBests.getD (rng.ints 3 % tempBests.length) originalPos
          else cp)
       else cp)
    else originalPos)
  else originalPos

/-- One optimizer step: computes the baseline score, generates and scores
candidates, selects the next position, commits it and updates the occupancy
cloud. The calcScore parameter stands for the ambient calculateListenerScore of
the scene; the nil-cloud fallback branch of the source is not modelled since
here the cloud is always a value. -/
def findAndApplyBestMoveForLearning (oc : OccupancyCloud) (calcScore : Vector3 → Vector3 → ℤ)
    (randomJumpProbability explorationFactor : ℝ) (rng : Rng) (movingIsSource : Bool)
    (movingName : String) (movingPos movingScale fixedPos fixedScale : Vector3)
    (goal : String) : Vector3 × OccupancyCloud :=
  let originalPos := movingPos
  let movingObjCloudState := if movingIsSource then StateSoundSource else StateListener
  let currentScore := scoreOfCandidate calcScore movingIsSource fixedPos originalPos
  let otherObjCurrentPos := fixedPos
  let otherObjScale := fixedScale
  let cands := candidateTestPositionsOf oc movingScale movingObjCloudState otherObjCurrentPos
    otherObjScale originalPos
  let best := evaluateCandidates calcScore movingIsSource fixedPos goal
    (currentScore, [originalPos]) cands
  let chosenPos := chooseNextPosition oc movingScale movingObjCloudState otherObjCurrentPos
    otherObjScale originalPos randomJumpProbability explorationFactor rng currentScore best
  (chosenPos, UpdateObjectInCloud oc movingName originalPos chosenPos movingScale
    movingObjCloudState)

/-- Fold preservation of a predicate on the accumulator when every processed
element respects it. -/
theorem foldl_preserving {α β : Type} (P : β → Prop) (R : α → Prop)
    (body : β → α → β) (hbody : ∀ st a, R a → P st → P (body st a)) :
    ∀ l : List α, (∀ a ∈ l, R a) → ∀ st, P st → P (l.foldl body st) := by
  intro l
  induction l with
  | nil =>
    intro _ st hst
    simpa using hst
  | cons a t ih =>
    intro hR st hst
    rw [List.foldl_cons]
    exact ih (fun b hb => hR b (List.mem_cons_of_mem a hb)) (body st a)
      (hbody st a (hR a (List.mem_cons_self a t)) hst)

theorem candidateTestPositionsOf_valid (oc : OccupancyCloud) (movingScale : Vector3)
    (movingObjCloudState : PointState) (otherObjCurrentPos otherObjScale : Vector3)
    (originalPos : Vector3) :
    ∀ q ∈ candidateTestPositionsOf oc movingScale movingObjCloudState otherObjCurrentPos
        otherObjScale originalPos,
      IsPositionAttemptValid oc q movingScale movingObjCloudState otherObjCurrentPos
        otherObjScale = true := by
  unfold candidateTestPositionsOf
  have hinner : ∀ dx dy : ℝ, ∀ (acc : List Vector3),
      (∀ q ∈ acc, IsPositionAttemptValid oc q movingScale movingObjCloudState
        otherObjCurrentPos otherObjScale = true) →
      ∀ q ∈ optimizerOffsets.foldl (fun acc dz =>
          if dx = 0 ∧ dy = 0 ∧ dz = 0 then acc
          else
            let testPos := clampToRoom oc movingScale originalPos dx dy dz
            if IsPositionAttemptValid oc testPos movingScale movingObjCloudState
                otherObjCurrentPos otherObjScale = false then acc
            else if isDuplicateIn acc testPos then acc
            else acc ++ [testPos]) acc,
        IsPositionAttemptValid oc q movingScale movingObjCloudState otherObjCurrentPos
          otherObjScale = true := by
    intro dx dy acc hacc
    refine foldl_preserving
      (fun st => ∀ q ∈ st, IsPositionAttemptValid oc q movingScale movingObjCloudState
        otherObjCurrentPos otherObjScale = true)
      (fun _ => True) _ ?_ optimizerOffsets (fun _ _ => trivial) acc hacc
    intro st dz _ hst
    dsimp only
    split_ifs with h1 h2 h3
    · exact hst
    · exact hst
    · exact hst
    · intro q hq
      rcases List.mem_append.mp hq with h | h
      · exact hst q h
      · simp at h
        subst h
        cases hval : IsPositionAttemptValid oc (clampToRoom oc movingScale originalPos dx dy dz)
            movingScale movingObjCloudState otherObjCurrentPos otherObjScale
        · exact absurd hval h2
        · rfl
  have hmiddle : ∀ dx : ℝ, ∀ (acc : List Vector3),
      (∀ q ∈ acc, IsPositionAttemptValid oc q movingScale movingObjCloudState
        otherObjCurrentPos otherObjScale = true) →
      ∀ q ∈ optimizerOffsets.foldl (fun acc dy =>
          optimizerOffsets.foldl (fun acc dz =>
            if dx = 0 ∧ dy = 0 ∧ dz = 0 then acc
            else
              let testPos := clampToRoom oc movingScale originalPos dx dy dz
              if IsPositionAttemptValid oc testPos movingScale movingObjCloudState
                  otherObjCurrentPos otherObjScale = false then acc
              else if isDuplicateIn acc testPos then acc
              else acc ++ [testPos]) acc) acc,
        IsPositionAttemptValid oc q movingScale movingObjCloudState otherObjCurrentPos
          otherObjScale = true := by
    intro dx acc hacc
    refine foldl_preserving
      (fun st => ∀ q ∈ st, IsPositionAttemptValid oc q movingScale movingObjCloudState
        otherObjCurrentPos otherObjScale = true)
      (fun _ => True) _ ?_ optimizerOffsets (fun _ _ => trivial) acc hacc
    intro st dy _ hst
    exact hinner dx dy st hst
  refine foldl_preserving
    (fun st => ∀ q ∈ st, IsPositionAttemptValid oc q movingScale movingObjCloudState
      otherObjCurrentPos otherObjScale = true)
    (fun _ => True) _ ?_ optimizerOffsets (fun _ _ => trivial) [] (by simp)
  intro st dx _ hst
  exact hmiddle dx st hst

theorem evaluateCandidates_mem (calcScore : Vector3 → Vector3 → ℤ) (movingIsSource : Bool)
    (fixedPos : Vector3) (goal : String) (Q : Vector3 → Prop)
    (init : ℤ × List Vector3) (cands : List Vector3)
    (hinit : ∀ q ∈ init.2, Q q) (hcands : ∀ c ∈ cands, Q c) :
    ∀ q ∈ (evaluateCandidates calcScore movingIsSource fixedPos goal init cands).2, Q q := by
  unfold evaluateCandidates
  refine foldl_preserving (fun st => ∀ q ∈ st.2, Q q) Q _ ?_ cands hcands init hinit
  intro st a hQ hst
  dsimp only
  split_ifs with h1 h2 h3 h4
  · intro q hq
    simp at hq
    subst hq
    exact hQ
  · exact hst
  · intro q hq
    rcases List.mem_append.mp hq with h | h
    · exact hst q h
    · simp at h
      subst h
      exact hQ
  · exact hst
  · exact hst

theorem getD_mod_mem (l : List Vector3) (k : ℕ) (d : Vector3) (h : 0 < l.length) :
    l.getD (k % l.length) d ∈ l := by
  have hlt : k % l.length < l.length := Nat.mod_lt _ h
  rw [List.getD_eq_getElem l d hlt]
  exact List.getElem_mem hlt

theorem chooseNextPosition_spec (oc : OccupancyCloud) (movingScale : Vector3)
    (movingObjCloudState : PointState) (otherObjCurrentPos otherObjScale : Vector3)
    (originalPos : Vector3) (randomJumpProbability explorationFactor : ℝ) (rng : Rng)
    (currentScore : ℤ) (best : ℤ × List Vector3)
    (hbest : ∀ q ∈ best.2, q = originalPos ∨
      IsPositionAttemptValid oc q movingScale movingObjCloudState otherObjCurrentPos
        otherObjScale = true) :
    chooseNextPosition oc movingScale movingObjCloudState otherObjCurrentPos otherObjScale
        originalPos randomJumpProbability explorationFactor rng currentScore best =
        originalPos ∨
      IsPositionAttemptValid oc
        (chooseNextPosition oc movingScale movingObjCloudState otherObjCurrentPos
          otherObjScale originalPos randomJumpProbability explorationFactor rng currentScore
          best) movingScale movingObjCloudState otherObjCurrentPos otherObjScale = true := by
  unfold chooseNextPosition
  dsimp only
  split_ifs with h1 h2 h3 h4 h5 h6
  · exact hbest _ (getD_mod_mem _ _ _ h1)
  · right
    exact h4
  · exact hbest _ (getD_mod_mem _ _ _ h1)
  · exact hbest _ (List.mem_of_mem_filter (getD_mod_mem _ _ _ h6))
  · exact hbest _ (getD_mod_mem _ _ _ h1)
  · exact hbest _ (getD_mod_mem _ _ _ h1)
  · left
    rfl

/-- C1 amended: the position committed by an optimizer step is either the
original position of the moving object (kept when nothing better, no jump, or
nothing valid exists — even if that original position itself would fail the
check) or a position for which IsPositionAttemptValid returned true with the
moving scale and role and the fixed object position and scale. -/
theorem findAndApplyBestMove_commits_valid_or_stays (oc : OccupancyCloud)
    (calcScore : Vector3 → Vector3 → ℤ) (randomJumpProbability explorationFactor : ℝ) (rng : Rng)
    (movingIsSource : Bool) (movingName : String)
    (movingPos movingScale fixedPos fixedScale : Vector3) (goal : String) :
    (findAndApplyBestMoveForLearning oc calcScore randomJumpProbability explorationFactor rng
        movingIsSource movingName movingPos movingScale fixedPos fixedScale goal).1 =
        movingPos ∨
      IsPositionAttemptValid oc
        (findAndApplyBestMoveForLearning oc calcScore randomJumpProbability explorationFactor rng
          movingIsSource movingName movingPos movingScale fixedPos fixedScale goal).1
        movingScale (if movingIsSource then StateSoundSource else StateListener)
        fixedPos fixedScale = true := by
  have hbest := evaluateCandidates_mem calcScore movingIsSource fixedPos goal
    (fun q => q = movingPos ∨
      IsPositionAttemptValid oc q movingScale
        (if movingIsSource then StateSoundSource else StateListener) fixedPos fixedScale = true)
    (scoreOfCandidate calcScore movingIsSource fixedPos movingPos, [movingPos])
    (candidateTestPositionsOf oc movingScale
      (if movingIsSource then StateSoundSource else StateListener) fixedPos fixedScale
      movingPos)
    (by
      intro q hq
      simp at hq
      subst hq
      exact Or.inl rfl)
    (fun c hc => Or.inr (candidateTestPositionsOf_valid oc movingScale _ fixedPos fixedScale
      movingPos c hc))
  exact chooseNextPosition_spec oc movingScale
    (if movingIsSource then StateSoundSource else StateListener) fixedPos fixedScale movingPos
    randomJumpProbability explorationFactor rng
    (scoreOfCandidate calcScore movingIsSource fixedPos movingPos) _ hbest

/-! ## A concrete optimizer step on a fully static cloud (C1) -/

/-- A 1 x 1 x 1 occupancy cloud over the room [0,4]^3 whose only cell is a
static obstacle. -/
def cloudC1 : OccupancyCloud :=
  { Grid := fun _ _ _ => StateStaticObstacle, RoomMin := ⟨0, 0, 0⟩, RoomMax := ⟨4, 4, 4⟩,
    CellSize := ⟨4, 4, 4⟩, CellsX := 1, CellsY := 1, CellsZ := 1 }

/-- A deterministic random stream: every float is 0.5, every int is 0. -/
def rngC1 : Rng := { floats := fun _ => 0.5, ints := fun _ => 0 }

/-- On cloudC1, every position with coordinates in the candidate set around
(2,2,2) fails the validity check: its search region is the single static cell
whose centre (2,2,2) lies within the object radius 1. -/
theorem cloudC1_invalid (a b c : ℝ)
    (ha : a = 3 / 2 ∨ a = 2 ∨ a = 5 / 2) (hb : b = 3 / 2 ∨ b = 2 ∨ b = 5 / 2)
    (hc : c = 3 / 2 ∨ c = 2 ∨ c = 5 / 2) :
    IsPositionAttemptValid cloudC1 ⟨a, b, c⟩ ⟨2, 2, 2⟩ StateSoundSource ⟨100, 0, 0⟩
      ⟨1, 1, 1⟩ = false := by
  have hreg : regionOf cloudC1 ⟨a, b, c⟩ 1 = [(0, 0, 0)] := by
    rcases ha with ha | ha | ha <;> rcases hb with hb | hb | hb <;>
      rcases hc with hc | hc | hc <;> subst ha <;> subst hb <;> subst hc <;>
      · unfold regionOf cloudC1 worldToGridCoords clampInt Vector3.Sub Vector3.Add
        norm_num
        decide
  have hlen : ((cellCenterOf cloudC1 (0, 0, 0)).Sub ⟨a, b, c⟩).Length < 1 := by
    rw [Vector3.length_lt_iff _ _ (by norm_num)]
    unfold cellCenterOf cloudC1 Vector3.Sub Vector3.LengthSquared
    rcases ha with ha | ha | ha <;> rcases hb with hb | hb | hb <;>
      rcases hc with hc | hc | hc <;> subst ha <;> subst hb <;> subst hc <;> norm_num
  unfold IsPositionAttemptValid
  dsimp only
  rw [show (max (2:ℝ) (max 2 2) / 2.0) = 1 by norm_num, hreg]
  simp only [List.all_cons, List.all_nil, Bool.and_true]
  rw [if_pos hlen]
  unfold getCellState cloudC1
  norm_num

/-- Around (2,2,2) with the moving scale (2,2,2), the room clamp of cloudC1 is
inactive for offsets of magnitude at most 1/2. -/
theorem clampC1 (dx dy dz : ℝ) (hx : |dx| ≤ 1 / 2) (hy : |dy| ≤ 1 / 2)
    (hz : |dz| ≤ 1 / 2) :
    clampToRoom cloudC1 ⟨2, 2, 2⟩ ⟨2, 2, 2⟩ dx dy dz = ⟨2 + dx, 2 + dy, 2 + dz⟩ := by
  obtain ⟨hx1, hx2⟩ := abs_le.mp hx
  obtain ⟨hy1, hy2⟩ := abs_le.mp hy
  obtain ⟨hz1, hz2⟩ := abs_le.mp hz
  unfold clampToRoom cloudC1
  dsimp only
  have e1 : max ((0:ℝ) + 2 / 2) (min (4 - 2 / 2) (2 + dx)) = 2 + dx := by
    rw [min_eq_right (by linarith), max_eq_right (by linarith)]
  have e2 : max ((0:ℝ) + 2 / 2) (min (4 - 2 / 2) (2 + dy)) = 2 + dy := by
    rw [min_eq_right (by linarith), max_eq_right (by linarith)]
  have e3 : max ((0:ℝ) + 2 / 2) (min (4 - 2 / 2) (2 + dz)) = 2 + dz := by
    rw [min_eq_right (by linarith), max_eq_right (by linarith)]
  rw [e1, e2, e3, if_neg (by linarith : ¬((2:ℝ) + dy < 0 + 2 / 2))]
  dsimp only
  rw [if_neg (by linarith : ¬((2:ℝ) + dy > 4 - 2 / 2))]

/-- On the fully static cloudC1 every nonzero candidate offset is rejected, so
the optimizer step generates no candidates at all. -/
theorem candsC1 : candidateTestPositionsOf cloudC1 ⟨2, 2, 2⟩ StateSoundSource ⟨100, 0, 0⟩
    ⟨1, 1, 1⟩ ⟨2, 2, 2⟩ = [] := by
  unfold candidateTestPositionsOf
  refine foldl_preserving (fun l => l = []) (fun d => d ∈ optimizerOffsets) _ ?_
    optimizerOffsets (fun a ha => ha) [] rfl
  intro st dx hdx hst
  refine foldl_preserving (fun l => l = []) (fun d => d ∈ optimizerOffsets) _ ?_
    optimizerOffsets (fun a ha => ha) st hst
  intro st2 dy hdy hst2
  refine foldl_preserving (fun l => l = []) (fun d => d ∈ optimizerOffsets) _ ?_
    optimizerOffsets (fun a ha => ha) st2 hst2
  intro st3 dz hdz hst3
  simp only [optimizerOffsets, OPTIMIZATION_STEP_SIZE, List.mem_cons,
    List.not_mem_nil, or_false] at hdx hdy hdz
  have hxb : |dx| ≤ 1 / 2 := by
    rcases hdx with h | h | h <;> rw [h, abs_le] <;> norm_num
  have hyb : |dy| ≤ 1 / 2 := by
    rcases hdy with h | h | h <;> rw [h, abs_le] <;> norm_num
  have hzb : |dz| ≤ 1 / 2 := by
    rcases hdz with h | h | h <;> rw [h, abs_le] <;> norm_num
  have hdx3 : (2:ℝ) + dx = 3 / 2 ∨ (2:ℝ) + dx = 2 ∨ (2:ℝ) + dx = 5 / 2 := by
    rcases hdx with h | h | h <;> rw [h] <;> norm_num
  have hdy3 : (2:ℝ) + dy = 3 / 2 ∨ (2:ℝ) + dy = 2 ∨ (2:ℝ) + dy = 5 / 2 := by
    rcases hdy with h | h | h <;> rw [h] <;> norm_num
  have hdz3 : (2:ℝ) + dz = 3 / 2 ∨ (2:ℝ) + dz = 2 ∨ (2:ℝ) + dz = 5 / 2 := by
    rcases hdz with h | h | h <;> rw [h] <;> norm_num
  dsimp only
  by_cases h0 : dx = 0 ∧ dy = 0 ∧ dz = 0
  · rw [if_pos h0]
    exact hst3
  · rw [if_neg h0, clampC1 dx dy dz hxb hyb hzb,
      if_pos (cloudC1_invalid _ _ _ hdx3 hdy3 hdz3)]
    exact hst3

/-- C1 counterexample: on a fully static occupancy cloud every candidate move is
rejected, the optimizer step returns the unchanged original position, and that
position itself fails IsPositionAttemptValid — so the step does not guarantee
that the committed position passes the validity check. -/
theorem findAndApplyBestMove_counterexample :
    (findAndApplyBestMoveForLearning cloudC1 (fun _ _ => 0) 0.1 1 rngC1 true "SoundSource"
      ⟨2, 2, 2⟩ ⟨2, 2, 2⟩ ⟨100, 0, 0⟩ ⟨1, 1, 1⟩ "maximize").1 = ⟨2, 2, 2⟩ ∧
    IsPositionAttemptValid cloudC1 ⟨2, 2, 2⟩ ⟨2, 2, 2⟩ StateSoundSource ⟨100, 0, 0⟩
      ⟨1, 1, 1⟩ = false := by
  constructor
  · unfold findAndApplyBestMoveForLearning
    dsimp only
    rw [if_pos rfl, candsC1]
    unfold evaluateCandidates
    rw [List.foldl_nil]
    unfold chooseNextPosition rngC1
    dsimp only
    rw [if_pos (by norm_num), if_neg (by norm_num), if_neg (by norm_num),
      if_pos (by norm_num)]
    rw [if_neg (by norm_num)]
    rfl
  · exact cloudC1_invalid 2 2 2 (Or.inr (Or.inl rfl)) (Or.inr (Or.inl rfl))
      (Or.inr (Or.inl rfl))

/-! ## Evaluation scoring (source: raycaster.go, part_000 globals) -/

/-- The ambient global state read by the evaluation path: the scene list, the
ray/bounce configuration and the precomputed Fibonacci table.  Go nil pointers
for the source and listener become Option values. -/
structure Globals where
  allSceneObjects : List SceneObject
  numRays : ℤ
  listener : Option SceneObject
  soundSource : Option SceneObject
  maxReflections : ℤ
  initialRayOpacity : ℝ
  volumeAttenuationFactor : ℝ
  fibonacciSequence : List ℤ

/-- castRayAndGetBounceCountForEvaluation: returns the bounce count when the
ray path reaches the listener sphere unoccluded, -1 otherwise.  Pointer
membership of the sound source in the collidable slice becomes list
membership; the recursion is bounded by the reflection budget. -/
def castRayAndGetBounceCountForEvaluation (g : Globals) (origin direction : Vector3)
    (currentReflections : ℤ) (collidables : List SceneObject) (listenerPos : Vector3)
    (listenerRadius : ℝ) : ℤ :=
  if currentReflections > g.maxReflections then -1
  else
    let effectiveCollidables :=
      if currentReflections > 0 then
        match g.soundSource with
        | some src => if src ∈ collidables then collidables else collidables ++ [src]
        | none => collidables
      else collidables
    let intersection := performRaycast origin direction MAX_RAY_DISTANCE effectiveCollidables none
    let rayLength := if intersection.Hit then intersection.Distance else MAX_RAY_DISTANCE
    let endPoint := origin.Add (direction.Scale rayLength)
    let dirToListener := listenerPos.Sub origin
    let t := dirToListener.Dot direction
    let closestPointOnLine :=
      if t ≤ 0 then origin
      else if t ≥ rayLength then endPoint
      else origin.Add (direction.Scale t)
    if (closestPointOnLine.Sub listenerPos).Length < listenerRadius ∧
        (intersection.Hit = false ∨
          intersection.Distance > (origin.Sub closestPointOnLine).Length) then
      currentReflections
    else if h : intersection.Hit = true ∧ currentReflections < g.maxReflections then
      (let currentSegmentOpacity :=
        g.initialRayOpacity * g.volumeAttenuationFactor ^ currentReflections
       if currentSegmentOpacity < 0.01 then -1
       else
         castRayAndGetBounceCountForEvaluation g
           (intersection.Point.Add ((direction.Reflect intersection.Normal).Scale 0.01))
           (direction.Reflect intersection.Normal) (currentReflections + 1) collidables
           listenerPos listenerRadius)
    else -1
  termination_by (g.maxReflections - currentReflections).toNat
  decreasing_by
    simp_wf
    have := h.2
    omega

/-- The temporary collidable list of calculateListenerScore: the scene without
the tested source occurrence and without the listener. -/
def tempCollidablesOf (g : Globals) (testSourcePos : Vector3) : List SceneObject :=
  g.allSceneObjects.filter fun obj =>
    ¬(obj.Name = "SoundSource" ∧ obj.Position.X = testSourcePos.X ∧
        obj.Position.Y = testSourcePos.Y ∧ obj.Position.Z = testSourcePos.Z) ∧
      obj.Name ≠ "Listener"

/-- The reduced evaluation ray count: numRays / 50 clamped into [10, 100]. -/
def evalNumRaysOf (g : Globals) : ℤ :=
  let e := g.numRays / 50
  let e := if e < 10 then 10 else e
  if e > 100 then 100 else e

/-- The listener radius used by the evaluation: the global listener X scale
when it sits at the tested position, the default 0.25 otherwise. -/
def listenerRadiusOf (g : Globals) (testListenerPos : Vector3) : ℝ :=
  match g.listener with
  | some l =>
    if l.Position.X = testListenerPos.X ∧ l.Position.Y = testListenerPos.Y ∧
        l.Position.Z = testListenerPos.Z then l.Scale.X
    else 0.25
  | none => 0.25

/-- The i-th Fibonacci-spiral evaluation direction. -/
def evalRayDirection (evalNumRays : ℤ) (i : ℕ) : Vector3 :=
  let phi := Real.arccos (-1 + (2 * (i : ℝ)) / (evalNumRays : ℝ))
  let theta := Real.sqrt ((evalNumRays : ℝ) * Real.pi) * phi
  (SetFromSphericalCoords 1 phi theta).Normalize

/-- calculateListenerScore: casts the reduced Fibonacci-sphere ray set from the
tested source position and accumulates the per-ray scores. -/
def calculateListenerScore (g : Globals) (testSourcePos testListenerPos : Vector3) : ℤ :=
  let tempCollidables := tempCollidablesOf g testSourcePos
  let evalNumRays := evalNumRaysOf g
  let listenerRadius := listenerRadiusOf g testListenerPos
  (List.range evalNumRays.toNat).foldl
    (fun score i =>
      let direction := evalRayDirection evalNumRays i
      let hitBounceCount := castRayAndGetBounceCountForEvaluation g testSourcePos direction 0
        tempCollidables testListenerPos listenerRadius
      if hitBounceCount = 0 then score + BASE_DIRECT_HIT_SCORE
      else if hitBounceCount > 0 then
        (let fibIndex :=
          if hitBounceCount > FIBONACCI_SCORE_CAP_INDEX then FIBONACCI_SCORE_CAP_INDEX
          else hitBounceCount
         if fibIndex < (g.fibonacciSequence.length : ℤ) then
           score + g.fibonacciSequence.getD fibIndex.toNat 0
         else score)
      else score)
    0

/-- The per-ray contribution as the specification words it: the base score for
a direct hit, the Fibonacci value at the capped bounce count for an indirect
hit, zero for a ray that never reaches the listener (stated against the
precomputed global table). -/
def claimRayContribution (g : Globals) (testSourcePos testListenerPos : Vector3) (i : ℕ) : ℤ :=
  let b := castRayAndGetBounceCountForEvaluation g testSourcePos
    (evalRayDirection (evalNumRaysOf g) i) 0 (tempCollidablesOf g testSourcePos)
    testListenerPos (listenerRadiusOf g testListenerPos)
  if b = 0 then BASE_DIRECT_HIT_SCORE
  else if b > 0 then fibonacciSequence.getD (min b FIBONACCI_SCORE_CAP_INDEX).toNat 0
  else 0

/-- Length of the precomputed Fibonacci table. -/
theorem fibonacciSequence_length : fibonacciSequence.length = 21 := by
  set_option maxRecDepth 10000 in decide

/-- A left fold whose body adds a per-element amount is the initial value plus
the sum of the mapped list. -/
theorem foldl_body_sum {α : Type} (body : ℤ → α → ℤ) (f : α → ℤ)
    (hbody : ∀ s a, body s a = s + f a) :
    ∀ (l : List α) (init : ℤ), l.foldl body init = init + (l.map f).sum := by
  intro l
  induction l with
  | nil =>
    intro init
    simp
  | cons a t ih =>
    intro init
    rw [List.foldl_cons, hbody, List.map_cons, List.sum_cons, ih]
    ring

/-- C2: with the Fibonacci table initialised as the program does in main, the
evaluation total equals the sum over the evaluation rays of the per-ray
contribution: BASE_DIRECT_HIT_SCORE for a ray reaching the listener with 0
bounces, the Fibonacci value at min(bounces, cap index) for one reaching it
with at least 1 bounce, and 0 for a ray that never reaches the listener. -/
theorem calculateListenerScore_sum (g : Globals)
    (hfib : g.fibonacciSequence = fibonacciSequence)
    (testSourcePos testListenerPos : Vector3) :
    calculateListenerScore g testSourcePos testListenerPos =
      ((List.range (evalNumRaysOf g).toNat).map
        (claimRayContribution g testSourcePos testListenerPos)).sum := by
  unfold calculateListenerScore
  dsimp only
  rw [foldl_body_sum _ (claimRayContribution g testSourcePos testListenerPos) ?_ _ 0, zero_add]
  intro s i
  unfold claimRayContribution
  dsimp only
  set b := castRayAndGetBounceCountForEvaluation g testSourcePos
    (evalRayDirection (evalNumRaysOf g) i) 0 (tempCollidablesOf g testSourcePos)
    testListenerPos (listenerRadiusOf g testListenerPos) with hb
  have hguard : (if b > FIBONACCI_SCORE_CAP_INDEX then FIBONACCI_SCORE_CAP_INDEX else b) <
      (g.fibonacciSequence.length : ℤ) := by
    rw [hfib]
    have hlen : (fibonacciSequence.length : ℤ) = 21 := by
      rw [fibonacciSequence_length]
      norm_num
    rw [hlen]
    rcases lt_or_le FIBONACCI_SCORE_CAP_INDEX b with h | h
    · rw [if_pos h]
      norm_num [FIBONACCI_SCORE_CAP_INDEX]
    · rw [if_neg (not_lt.mpr h)]
      have hb20 : b ≤ 20 := by simpa [FIBONACCI_SCORE_CAP_INDEX] using h
      omega
  have hidx : (if b > FIBONACCI_SCORE_CAP_INDEX then FIBONACCI_SCORE_CAP_INDEX else b) =
      min b FIBONACCI_SCORE_CAP_INDEX := by
    rcases lt_or_le FIBONACCI_SCORE_CAP_INDEX b with h | h
    · rw [if_pos h, min_eq_right h.le]
    · rw [if_neg (not_lt.mpr h), min_eq_left h]
  have hguard2 : min b FIBONACCI_SCORE_CAP_INDEX < (g.fibonacciSequence.length : ℤ) :=
    hidx ▸ hguard
  rw [hidx]
  split_ifs with h1 h2
  · rfl
  · rw [hfib]
  · omega

/-- The simulation world around the evaluation: the globals plus an explicit
random stream with its cursor.  calculateListenerScore reads only the globals
and never draws from the stream. -/
structure SimWorld where
  globals : Globals
  randFloats : ℕ → ℝ
  randCursor : ℕ

/-- calculateListenerScore as a transformer of the simulation world: the score
is computed from the globals and the world is returned unchanged, since the
evaluation path calls no random source and iterates only over slices in
order. -/
def calculateListenerScoreRun (w : SimWorld) (testSourcePos testListenerPos : Vector3) :
    ℤ × SimWorld :=
  (calculateListenerScore w.globals testSourcePos testListenerPos, w)

/-- C8: the reduced-resolution evaluation is deterministic: two worlds with the
same scene configuration (any random stream, any cursor) produce the same
total score, the evaluation leaves the world unchanged, and re-evaluating
immediately afterwards returns the same score again. -/
theorem calculateListenerScore_deterministic (w1 w2 : SimWorld)
    (hg : w1.globals = w2.globals) (testSourcePos testListenerPos : Vector3) :
    (calculateListenerScoreRun w1 testSourcePos testListenerPos).1 =
      (calculateListenerScoreRun w2 testSourcePos testListenerPos).1 ∧
    (calculateListenerScoreRun w1 testSourcePos testListenerPos).2 = w1 ∧
    (calculateListenerScoreRun
        (calculateListenerScoreRun w1 testSourcePos testListenerPos).2
        testSourcePos testListenerPos).1 =
      (calculateListenerScoreRun w1 testSourcePos testListenerPos).1 := by
  refine ⟨?_, rfl, rfl⟩
  show calculateListenerScore w1.globals testSourcePos testListenerPos =
    calculateListenerScore w2.globals testSourcePos testListenerPos
  rw [hg]

/-- A concrete set of globals with the default configuration of the source and
the Fibonacci table initialised as in main. -/
def gW : Globals :=
  { allSceneObjects := [], numRays := 1000, listener := none, soundSource := none,
    maxReflections := 3, initialRayOpacity := 0.6, volumeAttenuationFactor := 0.85,
    fibonacciSequence := fibonacciSequence }

theorem calculateListenerScore_sum_witness :
    gW.fibonacciSequence = fibonacciSequence ∧
    calculateListenerScore gW ⟨0, 0, 0⟩ ⟨1, 0, 0⟩ =
      ((List.range (evalNumRaysOf gW).toNat).map
        (claimRayContribution gW ⟨0, 0, 0⟩ ⟨1, 0, 0⟩)).sum :=
  ⟨rfl, calculateListenerScore_sum gW rfl ⟨0, 0, 0⟩ ⟨1, 0, 0⟩⟩

theorem calculateListenerScore_deterministic_witness :
    (⟨gW, fun _ => 0, 0⟩ : SimWorld).globals = (⟨gW, fun n => (n : ℝ), 7⟩ : SimWorld).globals ∧
    ((calculateListenerScoreRun ⟨gW, fun _ => 0, 0⟩ ⟨0, 0, 0⟩ ⟨1, 0, 0⟩).1 =
      (calculateListenerScoreRun ⟨gW, fun n => (n : ℝ), 7⟩ ⟨0, 0, 0⟩ ⟨1, 0, 0⟩).1 ∧
    (calculateListenerScoreRun ⟨gW, fun _ => 0, 0⟩ ⟨0, 0, 0⟩ ⟨1, 0, 0⟩).2 =
      (⟨gW, fun _ => 0, 0⟩ : SimWorld) ∧
    (calculateListenerScoreRun
        (calculateListenerScoreRun ⟨gW, fun _ => 0, 0⟩ ⟨0, 0, 0⟩ ⟨1, 0, 0⟩).2
        ⟨0, 0, 0⟩ ⟨1, 0, 0⟩).1 =
      (calculateListenerScoreRun ⟨gW, fun _ => 0, 0⟩ ⟨0, 0, 0⟩ ⟨1, 0, 0⟩).1) :=
  ⟨rfl, calculateListenerScore_deterministic ⟨gW, fun _ => 0, 0⟩ ⟨gW, fun n => (n : ℝ), 7⟩ rfl
    ⟨0, 0, 0⟩ ⟨1, 0, 0⟩⟩

end

end SRS
